import Mathlib

/-!
DMRGateway: the dispatch loop of `CDMRGateway::run`.

A shallow embedding of `src/DMRGateway.cpp`.  Pointers are presence flags
(`true` = non-NULL), `unsigned int` values are natural numbers reduced modulo
`2^32` where the source can wrap, the peers' `read` results are inputs of a
tick, and everything the loop does to a peer, to the log or to a voice source
is recorded as a list of events.  An access that the C++ leaves undefined (a
NULL dereference, an index of `status[]` / `timer[]` other than 1 or 2) makes
the step return `none`.
-/

namespace DMRGateway

/-! ## Constants and data -/

/-- Line 47: `const unsigned int XLX_SLOT = 2U`. -/
def XLX_SLOT : Nat := 2

/-- Line 48: `const unsigned int XLX_TG = 9U`. -/
def XLX_TG : Nat := 9

/-- Number of values of a C++ `unsigned int`. -/
def UINT : Nat := 4294967296

/-- Modelled from the spec: the `FLCO` enumeration is declared in a header that is
not part of the sources at hand; the spec names the two call types. -/
inductive FLCO where
  | FLCO_GROUP
  | FLCO_USER_USER
  deriving DecidableEq, Repr

/-- Modelled from the spec: the data type constant `DT_TERMINATOR_WITH_LC` is declared
in a header that is not part of the sources at hand; the spec only says that it
is one value of the data type enumeration. -/
def DT_TERMINATOR_WITH_LC : Nat := 2

/-- Modelled from the spec: `CDMRData`, the frame (section 3): slot number, source ID,
destination ID, call type, data type and an uninterpreted payload. -/
structure CDMRData where
  slotNo : Nat
  srcId : Nat
  dstId : Nat
  flco : FLCO
  dataType : Nat
  payload : List Nat
  deriving DecidableEq, Repr

/-- Modelled from the spec: `IRewrite::process` (section 4.1).  A rule either does not
match (`none`, the frame is left as it was) or matches and yields the rewritten
frame. -/
abbrev IRewrite := CDMRData → Option CDMRData

/-- Modelled from the spec: `CRewriteTG` (section 4.1, TGRewrite). -/
def CRewriteTG (fromSlot fromTG toSlot toTG range : Nat) : IRewrite := fun data =>
  if data.flco = FLCO.FLCO_GROUP ∧ data.slotNo = fromSlot ∧
      fromTG ≤ data.dstId ∧ data.dstId < fromTG + range then
    some { data with slotNo := toSlot, dstId := toTG + (data.dstId - fromTG) }
  else none

/-- Modelled from the spec: `CRewritePC` (section 4.1, PCRewrite). -/
def CRewritePC (fromSlot fromId toSlot toId range : Nat) : IRewrite := fun data =>
  if data.flco = FLCO.FLCO_USER_USER ∧ data.slotNo = fromSlot ∧
      fromId ≤ data.dstId ∧ data.dstId < fromId + range then
    some { data with slotNo := toSlot, dstId := toId + (data.dstId - fromId) }
  else none

/-- Modelled from the spec: `CRewriteType` (section 4.1, TypeRewrite). -/
def CRewriteType (fromSlot fromTG toSlot toId : Nat) : IRewrite := fun data =>
  if data.flco = FLCO.FLCO_GROUP ∧ data.slotNo = fromSlot ∧ data.dstId = fromTG then
    some { data with slotNo := toSlot, dstId := toId, flco := FLCO.FLCO_USER_USER }
  else none

/-- Modelled from the spec: `CRewriteSrc` (section 4.1, SrcRewrite). -/
def CRewriteSrc (fromSlot fromId toSlot toTG range : Nat) : IRewrite := fun data =>
  if data.slotNo = fromSlot ∧ fromId ≤ data.srcId ∧ data.srcId < fromId + range then
    some { data with slotNo := toSlot, dstId := toTG, flco := FLCO.FLCO_GROUP }
  else none

/-- Lines 61-67: `enum DMRGW_STATUS`. -/
inductive DMRGW_STATUS where
  | DMRGWS_NONE
  | DMRGWS_DMRNETWORK1
  | DMRGWS_DMRNETWORK2
  | DMRGWS_XLXREFLECTOR1
  | DMRGWS_XLXREFLECTOR2
  deriving DecidableEq, Repr

/-! ## The slot timer -/

/-- Modelled from the spec: `CTimer`, the per-slot inactivity timer (sections 3 and
4.3): it has a timeout, it is running or stopped, and while it runs it counts
the milliseconds elapsed since it was last started. -/
structure CTimer where
  timeout : Nat
  running : Bool
  elapsed : Nat
  deriving DecidableEq, Repr

namespace CTimer

/-- Modelled from the spec: `new CTimer(1000U, secs)`, a stopped timer of `secs` seconds. -/
def create (secs : Nat) : CTimer := { timeout := secs * 1000, running := false, elapsed := 0 }

/-- Modelled from the spec: `start()` (re)starts the count from zero. -/
def start (t : CTimer) : CTimer := { t with running := true, elapsed := 0 }

/-- Modelled from the spec: `stop()`. -/
def stop (t : CTimer) : CTimer := { t with running := false, elapsed := 0 }

/-- Modelled from the spec: `clock(ms)` advances a running timer by `ms` milliseconds. -/
def clock (t : CTimer) (ms : Nat) : CTimer :=
  if t.running then { t with elapsed := t.elapsed + ms } else t

/-- Modelled from the spec: `isRunning()`. -/
def isRunning (t : CTimer) : Bool := t.running

/-- Modelled from the spec: `hasExpired()`, the timeout has been reached. -/
def hasExpired (t : CTimer) : Bool := t.running && decide (t.timeout ≤ t.elapsed)

end CTimer

/-! ## Peers and observable events -/

/-- The five peers a frame can be written to. -/
inductive Peer where
  | Modem
  | XLX1
  | XLX2
  | DMR1
  | DMR2
  deriving DecidableEq, Repr

/-- Everything the loop does to the outside, in program order. -/
inductive Event where
  /-- Call of `peer->write(data)`. -/
  | write (p : Peer) (data : CDMRData)
  /-- Call of `peer->writePosition(buffer, length)`. -/
  | writePosition (p : Peer) (buffer : List Nat)
  /-- Call of `peer->writeTalkerAlias(buffer, length)`. -/
  | writeTalkerAlias (p : Peer) (buffer : List Nat)
  /-- Log line `XLX-k, Unlinking`. -/
  | logUnlinking (k : Nat)
  /-- Log line `XLX-k, Linking to reflector n`. -/
  | logLinking (k : Nat) (n : Nat)
  /-- Warning `XLX-k, Unexpected data from slot ...`. -/
  | logUnexpected (k : Nat) (slotNo : Nat) (flco : FLCO) (dstId : Nat)
  /-- Call of `voicek->unlinked()`. -/
  | unlinked (k : Nat)
  /-- Call of `voicek->linkedTo(n)`. -/
  | linkedTo (k : Nat) (n : Nat)
  deriving DecidableEq, Repr

/-! ## The gateway object and the state of the loop -/

/-- The members of `CDMRGateway` that the loop only reads, together with the two
locals `voice1`, `voice2` of `run()`, which are fixed before the loop starts.
A pointer is `true` (or `some`) when it is not NULL. -/
structure CDMRGateway where
  m_dmrNetwork1 : Bool
  m_dmrNetwork2 : Bool
  m_xlxNetwork1 : Bool
  m_xlxNetwork2 : Bool
  m_xlx1Slot : Nat
  m_xlx1TG : Nat
  m_xlx1Base : Nat
  m_rpt1Rewrite : Option IRewrite
  m_xlx1Rewrite : Option IRewrite
  m_xlx2Slot : Nat
  m_xlx2TG : Nat
  m_xlx2Base : Nat
  m_rpt2Rewrite : Option IRewrite
  m_xlx2Rewrite : Option IRewrite
  m_dmr1NetRewrites : List IRewrite
  m_dmr1RFRewrites : List IRewrite
  m_dmr2NetRewrites : List IRewrite
  m_dmr2RFRewrites : List IRewrite
  voice1 : Bool
  voice2 : Bool

/-- What the loop mutates: the two reflector members, the arrays `status[]` and
`timer[]` (entries 1 and 2, the only ones initialised) and the local `changed`. -/
structure RunState where
  m_xlx1Reflector : Nat
  m_xlx2Reflector : Nat
  status1 : DMRGW_STATUS
  status2 : DMRGW_STATUS
  timer1 : CTimer
  timer2 : CTimer
  changed : Bool
  deriving DecidableEq, Repr

namespace RunState

/-- Read of `status[i]`; `none` outside the initialised entries. -/
def status (s : RunState) (i : Nat) : Option DMRGW_STATUS :=
  if i = 1 then some s.status1 else if i = 2 then some s.status2 else none

/-- Read of `timer[i]`; `none` outside the initialised entries. -/
def timer (s : RunState) (i : Nat) : Option CTimer :=
  if i = 1 then some s.timer1 else if i = 2 then some s.timer2 else none

/-- The pair of statements `status[i] = tag; timer[i]->start();`. -/
def claim (s : RunState) (i : Nat) (tag : DMRGW_STATUS) : Option RunState :=
  if i = 1 then some { s with status1 := tag, timer1 := s.timer1.start }
  else if i = 2 then some { s with status2 := tag, timer2 := s.timer2.start }
  else none

end RunState

/-- Result of a piece of the loop body: the new state and the events it produced,
or `none` when the C++ has no defined behaviour. -/
abbrev Result := Option (RunState × List Event)

/-- Sequential composition: run `k` after a first piece, appending its events. -/
def Result.andThen (r : Result) (k : RunState → Result) : Result :=
  match r with
  | none => none
  | some (s, ev) =>
    match k s with
    | none => none
    | some (s2, ev2) => some (s2, ev ++ ev2)

/-! ## Step 1: a frame read from the modem (lines 342-465) -/

/-- Lines 425-431 (and the three copies at 446-452, 511-517, 538-544): the rules are
tried in list order and the search stops at the first one whose `process`
returns true.  The second component counts the calls of `process`. -/
def processChain : List IRewrite → CDMRData → Option CDMRData × Nat
  | [], _ => (none, 0)
  | r :: rs, data =>
    match r data with
    | some d => (some d, 1)
    | none => ((processChain rs data).1, (processChain rs data).2 + 1)

/-- Lines 434-439 (and 455-460, 520-528, 547-555): the frame is written to `dest`
and the slot it now carries is claimed for `tag`, provided that slot is free
or already held by `tag`. -/
def guardedWrite (s : RunState) (data : CDMRData) (tag : DMRGW_STATUS) (dest : Peer) :
    Result :=
  match s.status data.slotNo with
  | none => none
  | some st =>
    if st = DMRGW_STATUS.DMRGWS_NONE ∨ st = tag then
      match s.claim data.slotNo tag with
      | none => none
      | some s2 => some (s2, [Event.write dest data])
    else some (s, [])

/-- Lines 348-352: XLX-1 voice.  The result of `m_xlx1Rewrite->process` is ignored. -/
def xlx1Voice (g : CDMRGateway) (s : RunState) (data : CDMRData) : Result :=
  match g.m_xlx1Rewrite with
  | none => none
  | some r =>
    let data2 := (r data).getD data
    if g.m_xlxNetwork1 then
      match s.claim data.slotNo DMRGW_STATUS.DMRGWS_XLXREFLECTOR1 with
      | none => none
      | some s2 => some (s2, [Event.write Peer.XLX1 data2])
    else none

/-- Lines 353-357: XLX-2 voice. -/
def xlx2Voice (g : CDMRGateway) (s : RunState) (data : CDMRData) : Result :=
  match g.m_xlx2Rewrite with
  | none => none
  | some r =>
    let data2 := (r data).getD data
    if g.m_xlxNetwork2 then
      match s.claim data.slotNo DMRGW_STATUS.DMRGWS_XLXREFLECTOR2 with
      | none => none
      | some s2 => some (s2, [Event.write Peer.XLX2 data2])
    else none

/-- Lines 359-360: `dstId += 4000U; dstId -= base;` on 32-bit unsigned values. -/
def requested (dstId base : Nat) : Nat :=
  ((dstId + 4000) % UINT + UINT - base) % UINT

/-- Lines 359-370: change detection of the XLX-1 link-control branch. -/
def xlx1Detect (g : CDMRGateway) (s : RunState) (data : CDMRData) : RunState × List Event :=
  let dstId := requested data.dstId g.m_xlx1Base
  if dstId ≠ s.m_xlx1Reflector then
    ({ s with m_xlx1Reflector := dstId, changed := true },
      [if dstId = 4000 then Event.logUnlinking 1 else Event.logLinking 1 dstId])
  else (s, [])

/-- Lines 390-401: change detection of the XLX-2 link-control branch.  The test on
line 393 reads `m_xlx1Reflector`. -/
def xlx2Detect (g : CDMRGateway) (s : RunState) (data : CDMRData) : RunState × List Event :=
  let dstId := requested data.dstId g.m_xlx2Base
  if dstId ≠ s.m_xlx1Reflector then
    ({ s with m_xlx2Reflector := dstId, changed := true },
      [if dstId = 4000 then Event.logUnlinking 2 else Event.logLinking 2 dstId])
  else (s, [])

/-- Lines 377-388: the announcement on `voice1`. -/
def xlx1Announce (g : CDMRGateway) (s : RunState) (data : CDMRData) : RunState × List Event :=
  if g.voice1 then
    if data.dataType = DT_TERMINATOR_WITH_LC then
      if s.changed then
        ({ s with changed := false },
          [if s.m_xlx1Reflector = 4000 then Event.unlinked 1
            else Event.linkedTo 1 s.m_xlx1Reflector])
      else (s, [])
    else (s, [])
  else (s, [])

/-- Lines 408-419: the announcement on `voice2`. -/
def xlx2Announce (g : CDMRGateway) (s : RunState) (data : CDMRData) : RunState × List Event :=
  if g.voice2 then
    if data.dataType = DT_TERMINATOR_WITH_LC then
      if s.changed then
        ({ s with changed := false },
          [if s.m_xlx2Reflector = 4000 then Event.unlinked 2
            else Event.linkedTo 2 s.m_xlx2Reflector])
      else (s, [])
    else (s, [])
  else (s, [])

/-- Lines 359-388: the XLX-1 link-control branch. -/
def xlx1Link (g : CDMRGateway) (s : RunState) (data : CDMRData) : Result :=
  let d := xlx1Detect g s data
  let data2 := { data with slotNo := XLX_SLOT }
  if g.m_xlxNetwork1 then
    match d.1.claim data.slotNo DMRGW_STATUS.DMRGWS_XLXREFLECTOR1 with
    | none => none
    | some s2 =>
      let a := xlx1Announce g s2 data2
      some (a.1, d.2 ++ [Event.write Peer.XLX1 data2] ++ a.2)
  else none

/-- Lines 390-419: the XLX-2 link-control branch. -/
def xlx2Link (g : CDMRGateway) (s : RunState) (data : CDMRData) : Result :=
  let d := xlx2Detect g s data
  let data2 := { data with slotNo := XLX_SLOT }
  if g.m_xlxNetwork2 then
    match d.1.claim data.slotNo DMRGW_STATUS.DMRGWS_XLXREFLECTOR2 with
    | none => none
    | some s2 =>
      let a := xlx2Announce g s2 data2
      some (a.1, d.2 ++ [Event.write Peer.XLX2 data2] ++ a.2)
  else none

/-- Lines 444-462: the modem frame offered to DMR-2 (reached when `rewritten` is
still false). -/
def modemToDMR2 (g : CDMRGateway) (s : RunState) (data : CDMRData) : Result :=
  if g.m_dmrNetwork2 then
    match (processChain g.m_dmr2RFRewrites data).1 with
    | some d => guardedWrite s d DMRGW_STATUS.DMRGWS_DMRNETWORK2 Peer.DMR2
    | none => some (s, [])
  else some (s, [])

/-- Lines 421-464: the modem frame offered to DMR-1 and then, if no rule of DMR-1
matched, to DMR-2. -/
def modemToDMR (g : CDMRGateway) (s : RunState) (data : CDMRData) : Result :=
  if g.m_dmrNetwork1 then
    match (processChain g.m_dmr1RFRewrites data).1 with
    | some d => guardedWrite s d DMRGW_STATUS.DMRGWS_DMRNETWORK1 Peer.DMR1
    | none => modemToDMR2 g s data
  else modemToDMR2 g s data

/-- The five arms of the `if` / `else if` chain of lines 348-420. -/
inductive Branch where
  | xlx1Voice
  | xlx2Voice
  | xlx1Link
  | xlx2Link
  | dmr
  deriving DecidableEq, Repr

/-- The conditions of lines 348, 353, 358 and 389, tested in that order; the sums
`m_xlx1Base + 26U` and `m_xlx2Base + 26U` are 32-bit sums. -/
def branch (g : CDMRGateway) (data : CDMRData) : Branch :=
  if data.flco = FLCO.FLCO_GROUP ∧ data.slotNo = g.m_xlx1Slot ∧ data.dstId = g.m_xlx1TG then
    Branch.xlx1Voice
  else if data.flco = FLCO.FLCO_GROUP ∧ data.slotNo = g.m_xlx2Slot ∧
      data.dstId = g.m_xlx2TG then
    Branch.xlx2Voice
  else if data.flco = FLCO.FLCO_USER_USER ∧ data.slotNo = g.m_xlx1Slot ∧
      g.m_xlx1Base ≤ data.dstId ∧ data.dstId ≤ (g.m_xlx1Base + 26) % UINT then
    Branch.xlx1Link
  else if data.flco = FLCO.FLCO_USER_USER ∧ data.slotNo = g.m_xlx2Slot ∧
      g.m_xlx2Base ≤ data.dstId ∧ data.dstId ≤ (g.m_xlx2Base + 26) % UINT then
    Branch.xlx2Link
  else Branch.dmr

/-- Lines 343-465: dispatch of a frame read from the modem. -/
def fromModem (g : CDMRGateway) (s : RunState) (data : CDMRData) : Result :=
  match branch g data with
  | Branch.xlx1Voice => xlx1Voice g s data
  | Branch.xlx2Voice => xlx2Voice g s data
  | Branch.xlx1Link => xlx1Link g s data
  | Branch.xlx2Link => xlx2Link g s data
  | Branch.dmr => modemToDMR g s data

/-! ## Step 2: frames read from the networks (lines 467-558) -/

/-- Lines 467-484: a frame read from XLX-1.  `read` is only called when the network
exists; `inp` is what it delivers. -/
def fromXLX1 (g : CDMRGateway) (s : RunState) (inp : Option CDMRData) : Result :=
  if g.m_xlxNetwork1 then
    match inp with
    | none => some (s, [])
    | some data =>
      match s.status g.m_xlx1Slot with
      | none => none
      | some st =>
        if st = DMRGW_STATUS.DMRGWS_NONE ∨ st = DMRGW_STATUS.DMRGWS_XLXREFLECTOR1 then
          match g.m_rpt1Rewrite with
          | none => none
          | some r =>
            match r data with
            | some d =>
              match s.claim g.m_xlx1Slot DMRGW_STATUS.DMRGWS_XLXREFLECTOR1 with
              | none => none
              | some s2 => some (s2, [Event.write Peer.Modem d])
            | none => some (s, [Event.logUnexpected 1 data.slotNo data.flco data.dstId])
        else some (s, [])
  else some (s, [])

/-- Lines 486-504: a frame read from XLX-2. -/
def fromXLX2 (g : CDMRGateway) (s : RunState) (inp : Option CDMRData) : Result :=
  if g.m_xlxNetwork2 then
    match inp with
    | none => some (s, [])
    | some data =>
      match s.status g.m_xlx2Slot with
      | none => none
      | some st =>
        if st = DMRGW_STATUS.DMRGWS_NONE ∨ st = DMRGW_STATUS.DMRGWS_XLXREFLECTOR2 then
          match g.m_rpt2Rewrite with
          | none => none
          | some r =>
            match r data with
            | some d =>
              match s.claim g.m_xlx2Slot DMRGW_STATUS.DMRGWS_XLXREFLECTOR2 with
              | none => none
              | some s2 => some (s2, [Event.write Peer.Modem d])
            | none => some (s, [Event.logUnexpected 2 data.slotNo data.flco data.dstId])
        else some (s, [])
  else some (s, [])

/-- Lines 506-531: a frame read from DMR-1. -/
def fromDMR1 (g : CDMRGateway) (s : RunState) (inp : Option CDMRData) : Result :=
  if g.m_dmrNetwork1 then
    match inp with
    | none => some (s, [])
    | some data =>
      match (processChain g.m_dmr1NetRewrites data).1 with
      | some d => guardedWrite s d DMRGW_STATUS.DMRGWS_DMRNETWORK1 Peer.Modem
      | none => some (s, [])
  else some (s, [])

/-- Lines 533-558: a frame read from DMR-2. -/
def fromDMR2 (g : CDMRGateway) (s : RunState) (inp : Option CDMRData) : Result :=
  if g.m_dmrNetwork2 then
    match inp with
    | none => some (s, [])
    | some data =>
      match (processChain g.m_dmr2NetRewrites data).1 with
      | some d => guardedWrite s d DMRGW_STATUS.DMRGWS_DMRNETWORK2 Peer.Modem
      | none => some (s, [])
  else some (s, [])

/-! ## Steps 3 to 5 (lines 560-632) -/

/-- Lines 564-571: the four conditional `writePosition` calls. -/
def broadcastPosition (g : CDMRGateway) (buffer : List Nat) : List Event :=
  (if g.m_xlxNetwork1 then [Event.writePosition Peer.XLX1 buffer] else []) ++
  (if g.m_xlxNetwork2 then [Event.writePosition Peer.XLX2 buffer] else []) ++
  (if g.m_dmrNetwork1 then [Event.writePosition Peer.DMR1 buffer] else []) ++
  (if g.m_dmrNetwork2 then [Event.writePosition Peer.DMR2 buffer] else [])

/-- Lines 575-582: the four conditional `writeTalkerAlias` calls. -/
def broadcastTalkerAlias (g : CDMRGateway) (buffer : List Nat) : List Event :=
  (if g.m_xlxNetwork1 then [Event.writeTalkerAlias Peer.XLX1 buffer] else []) ++
  (if g.m_xlxNetwork2 then [Event.writeTalkerAlias Peer.XLX2 buffer] else []) ++
  (if g.m_dmrNetwork1 then [Event.writeTalkerAlias Peer.DMR1 buffer] else []) ++
  (if g.m_dmrNetwork2 then [Event.writeTalkerAlias Peer.DMR2 buffer] else [])

/-- Lines 560-583: position and talker alias reports. -/
def auxiliary (g : CDMRGateway) (position talkerAlias : Option (List Nat)) : List Event :=
  (match position with
    | some b => broadcastPosition g b
    | none => []) ++
  (match talkerAlias with
    | some b => broadcastTalkerAlias g b
    | none => [])

/-- Lines 585-592: a frame produced by `voice1`. -/
def fromVoice1 (g : CDMRGateway) (s : RunState) (inp : Option CDMRData) : Result :=
  if g.voice1 then
    match inp with
    | none => some (s, [])
    | some data =>
      match s.claim g.m_xlx1Slot DMRGW_STATUS.DMRGWS_XLXREFLECTOR1 with
      | none => none
      | some s2 => some (s2, [Event.write Peer.Modem data])
  else some (s, [])

/-- Lines 594-601: a frame produced by `voice2`. -/
def fromVoice2 (g : CDMRGateway) (s : RunState) (inp : Option CDMRData) : Result :=
  if g.voice2 then
    match inp with
    | none => some (s, [])
    | some data =>
      match s.claim g.m_xlx2Slot DMRGW_STATUS.DMRGWS_XLXREFLECTOR2 with
      | none => none
      | some s2 => some (s2, [Event.write Peer.Modem data])
  else some (s, [])

/-- Lines 626-632: the slot timers are advanced and an expired one releases its slot. -/
def clockTimers (s : RunState) (ms : Nat) : RunState :=
  let t1 := s.timer1.clock ms
  let s1 : RunState :=
    if t1.isRunning && t1.hasExpired then
      { s with status1 := DMRGW_STATUS.DMRGWS_NONE, timer1 := t1.stop }
    else { s with timer1 := t1 }
  let t2 := s1.timer2.clock ms
  if t2.isRunning && t2.hasExpired then
    { s1 with status2 := DMRGW_STATUS.DMRGWS_NONE, timer2 := t2.stop }
  else { s1 with timer2 := t2 }

/-- What the peers deliver during one pass of the loop, and the time the stop watch
measures at its end. -/
structure TickInput where
  modem : Option CDMRData
  xlx1 : Option CDMRData
  xlx2 : Option CDMRData
  dmr1 : Option CDMRData
  dmr2 : Option CDMRData
  position : Option (List Nat)
  talkerAlias : Option (List Nat)
  voice1 : Option CDMRData
  voice2 : Option CDMRData
  ms : Nat
  deriving DecidableEq, Repr

/-- Lines 343-465 with the test of `ret` on line 343. -/
def step1 (g : CDMRGateway) (s : RunState) (inp : Option CDMRData) : Result :=
  match inp with
  | none => some (s, [])
  | some data => fromModem g s data

/-- Lines 340-601: the body of the loop up to the clocking. -/
def dispatch (g : CDMRGateway) (s : RunState) (i : TickInput) : Result :=
  (((((((step1 g s i.modem).andThen
    (fun s => fromXLX1 g s i.xlx1)).andThen
    (fun s => fromXLX2 g s i.xlx2)).andThen
    (fun s => fromDMR1 g s i.dmr1)).andThen
    (fun s => fromDMR2 g s i.dmr2)).andThen
    (fun s => some (s, auxiliary g i.position i.talkerAlias))).andThen
    (fun s => fromVoice1 g s i.voice1)).andThen
    (fun s => fromVoice2 g s i.voice2)

/-- Lines 340-636: one pass of the loop. -/
def tick (g : CDMRGateway) (s : RunState) (i : TickInput) : Result :=
  (dispatch g s i).andThen (fun s => some (clockTimers s i.ms, []))

/-- The loop run over a finite list of passes. -/
def runTicks (g : CDMRGateway) : RunState → List TickInput → Result
  | s, [] => some (s, [])
  | s, i :: is => (tick g s i).andThen (fun s2 => runTicks g s2 is)

/-! ## Construction (lines 120-144, 267-330, 698-978) -/

/-- Entry of the TG rewrite list of the configuration. -/
structure CTGRewriteStruct where
  m_fromSlot : Nat
  m_fromTG : Nat
  m_toSlot : Nat
  m_toTG : Nat
  m_range : Nat
  deriving DecidableEq, Repr

/-- Entry of the private call rewrite list of the configuration. -/
structure CPCRewriteStruct where
  m_fromSlot : Nat
  m_fromId : Nat
  m_toSlot : Nat
  m_toId : Nat
  m_range : Nat
  deriving DecidableEq, Repr

/-- Entry of the type rewrite list of the configuration. -/
structure CTypeRewriteStruct where
  m_fromSlot : Nat
  m_fromTG : Nat
  m_toSlot : Nat
  m_toId : Nat
  deriving DecidableEq, Repr

/-- Entry of the source rewrite list of the configuration. -/
structure CSrcRewriteStruct where
  m_fromSlot : Nat
  m_fromId : Nat
  m_toSlot : Nat
  m_toTG : Nat
  m_range : Nat
  deriving DecidableEq, Repr

/-- The values `run()` and the `create` functions read from `m_conf`, and whether
`open()` succeeds on each voice source. -/
structure CConf where
  DMRNetwork1Enabled : Bool
  DMRNetwork1TGRewrites : List CTGRewriteStruct
  DMRNetwork1PCRewrites : List CPCRewriteStruct
  DMRNetwork1TypeRewrites : List CTypeRewriteStruct
  DMRNetwork1SrcRewrites : List CSrcRewriteStruct
  DMRNetwork2Enabled : Bool
  DMRNetwork2TGRewrites : List CTGRewriteStruct
  DMRNetwork2PCRewrites : List CPCRewriteStruct
  DMRNetwork2TypeRewrites : List CTypeRewriteStruct
  DMRNetwork2SrcRewrites : List CSrcRewriteStruct
  XLXNetwork1Enabled : Bool
  XLXNetwork1Slot : Nat
  XLXNetwork1TG : Nat
  XLXNetwork1Base : Nat
  XLXNetwork2Enabled : Bool
  XLXNetwork2Slot : Nat
  XLXNetwork2TG : Nat
  XLXNetwork2Base : Nat
  Timeout : Nat
  VoiceEnabled : Bool
  voice1Opens : Bool
  voice2Opens : Bool
  deriving DecidableEq, Repr

/-- Lines 120-144: the constructor (with `voice1 = voice2 = NULL`, lines 294-295). -/
def CDMRGateway.new : CDMRGateway :=
  { m_dmrNetwork1 := false, m_dmrNetwork2 := false,
    m_xlxNetwork1 := false, m_xlxNetwork2 := false,
    m_xlx1Slot := 0, m_xlx1TG := 0, m_xlx1Base := 0,
    m_rpt1Rewrite := none, m_xlx1Rewrite := none,
    m_xlx2Slot := 0, m_xlx2TG := 0, m_xlx2Base := 0,
    m_rpt2Rewrite := none, m_xlx2Rewrite := none,
    m_dmr1NetRewrites := [], m_dmr1RFRewrites := [],
    m_dmr2NetRewrites := [], m_dmr2RFRewrites := [],
    voice1 := false, voice2 := false }

/-- Lines 742-779 and 828-865: the RF chain is the TG rules, then the private call
rules, then the type rules, each in configuration order. -/
def rfChain (tg : List CTGRewriteStruct) (pc : List CPCRewriteStruct)
    (ty : List CTypeRewriteStruct) : List IRewrite :=
  tg.map (fun r => CRewriteTG r.m_fromSlot r.m_fromTG r.m_toSlot r.m_toTG r.m_range) ++
  pc.map (fun r => CRewritePC r.m_fromSlot r.m_fromId r.m_toSlot r.m_toId r.m_range) ++
  ty.map (fun r => CRewriteType r.m_fromSlot r.m_fromTG r.m_toSlot r.m_toId)

/-- Lines 742-779 and 828-865: the Net chain is the reversed TG rules, then the source
rules. -/
def netChain (tg : List CTGRewriteStruct) (src : List CSrcRewriteStruct) : List IRewrite :=
  tg.map (fun r => CRewriteTG r.m_toSlot r.m_toTG r.m_fromSlot r.m_fromTG r.m_range) ++
  src.map (fun r => CRewriteSrc r.m_fromSlot r.m_fromId r.m_toSlot r.m_toTG r.m_range)

/-- Lines 698-782: `createDMRNetwork1` when `open()` succeeds. -/
def createDMRNetwork1 (c : CConf) (g : CDMRGateway) : CDMRGateway :=
  { g with
    m_dmrNetwork1 := true
    m_dmr1RFRewrites :=
      g.m_dmr1RFRewrites ++
        rfChain c.DMRNetwork1TGRewrites c.DMRNetwork1PCRewrites c.DMRNetwork1TypeRewrites
    m_dmr1NetRewrites :=
      g.m_dmr1NetRewrites ++ netChain c.DMRNetwork1TGRewrites c.DMRNetwork1SrcRewrites }

/-- Lines 784-868: `createDMRNetwork2` when `open()` succeeds. -/
def createDMRNetwork2 (c : CConf) (g : CDMRGateway) : CDMRGateway :=
  { g with
    m_dmrNetwork2 := true
    m_dmr2RFRewrites :=
      g.m_dmr2RFRewrites ++
        rfChain c.DMRNetwork2TGRewrites c.DMRNetwork2PCRewrites c.DMRNetwork2TypeRewrites
    m_dmr2NetRewrites :=
      g.m_dmr2NetRewrites ++ netChain c.DMRNetwork2TGRewrites c.DMRNetwork2SrcRewrites }

/-- Lines 870-923: `createXLXNetwork1` when `open()` succeeds. -/
def createXLXNetwork1 (c : CConf) (g : CDMRGateway) : CDMRGateway :=
  { g with
    m_xlxNetwork1 := true
    m_xlx1Slot := c.XLXNetwork1Slot
    m_xlx1TG := c.XLXNetwork1TG
    m_xlx1Base := c.XLXNetwork1Base
    m_rpt1Rewrite := some (CRewriteTG XLX_SLOT XLX_TG c.XLXNetwork1Slot c.XLXNetwork1TG 1)
    m_xlx1Rewrite := some (CRewriteTG c.XLXNetwork1Slot c.XLXNetwork1TG XLX_SLOT XLX_TG 1) }

/-- Lines 925-978: `createXLXNetwork2` when `open()` succeeds. -/
def createXLXNetwork2 (c : CConf) (g : CDMRGateway) : CDMRGateway :=
  { g with
    m_xlxNetwork2 := true
    m_xlx2Slot := c.XLXNetwork2Slot
    m_xlx2TG := c.XLXNetwork2TG
    m_xlx2Base := c.XLXNetwork2Base
    m_rpt2Rewrite := some (CRewriteTG XLX_SLOT XLX_TG c.XLXNetwork2Slot c.XLXNetwork2TG 1)
    m_xlx2Rewrite := some (CRewriteTG c.XLXNetwork2Slot c.XLXNetwork2TG XLX_SLOT XLX_TG 1) }

/-- Lines 267-322: the part of `run()` before the loop, when every `open()` of a
network succeeds (otherwise `run()` returns before the loop). -/
def setup (c : CConf) : CDMRGateway :=
  let g0 := CDMRGateway.new
  let g1 := if c.DMRNetwork1Enabled then createDMRNetwork1 c g0 else g0
  let g2 := if c.DMRNetwork2Enabled then createDMRNetwork2 c g1 else g1
  let g3 := if c.XLXNetwork1Enabled then createXLXNetwork1 c g2 else g2
  let g4 := if c.XLXNetwork2Enabled then createXLXNetwork2 c g3 else g3
  if c.VoiceEnabled && (g4.m_xlxNetwork1 || g4.m_xlxNetwork2) then
    { g4 with
      voice1 := g4.m_xlxNetwork1 && c.voice1Opens
      voice2 := g4.m_xlxNetwork2 && c.voice2Opens }
  else g4

/-- Lines 127, 133, 324-330, 337: the state in which the loop is entered. -/
def initial (c : CConf) : RunState :=
  { m_xlx1Reflector := 4000, m_xlx2Reflector := 4000,
    status1 := DMRGW_STATUS.DMRGWS_NONE, status2 := DMRGW_STATUS.DMRGWS_NONE,
    timer1 := CTimer.create c.Timeout, timer2 := CTimer.create c.Timeout,
    changed := false }

/-! ## Observations on event lists -/

/-- The frames written to peers, in order. -/
def writes : List Event → List (Peer × CDMRData)
  | [] => []
  | Event.write p d :: ev => (p, d) :: writes ev
  | _ :: ev => writes ev

/-- The calls made on voice source `k` (`unlinked()` or `linkedTo(n)`), in order. -/
def voiceCalls (k : Nat) : List Event → List Event
  | [] => []
  | Event.unlinked j :: ev =>
    if j = k then Event.unlinked j :: voiceCalls k ev else voiceCalls k ev
  | Event.linkedTo j n :: ev =>
    if j = k then Event.linkedTo j n :: voiceCalls k ev else voiceCalls k ev
  | _ :: ev => voiceCalls k ev

/-- The log lines (messages and warnings), in order. -/
def logs : List Event → List Event
  | [] => []
  | Event.logUnlinking k :: ev => Event.logUnlinking k :: logs ev
  | Event.logLinking k n :: ev => Event.logLinking k n :: logs ev
  | Event.logUnexpected k a b d :: ev => Event.logUnexpected k a b d :: logs ev
  | _ :: ev => logs ev

/-- What the constructor and the `create` functions establish for one XLX session:
either the network exists and both fixed rewrites are the TG rules of lines
919-920 (974-975), or nothing of the session was touched after the constructor. -/
def SessionBuilt (net : Bool) (slot tg base : Nat) (rpt xlx : Option IRewrite) : Prop :=
  (net = true ∧ rpt = some (CRewriteTG XLX_SLOT XLX_TG slot tg 1) ∧
    xlx = some (CRewriteTG slot tg XLX_SLOT XLX_TG 1)) ∨
  (net = false ∧ slot = 0 ∧ tg = 0 ∧ base = 0 ∧ rpt = none ∧ xlx = none)

/-- The facts about a gateway object that hold when the loop is entered. -/
structure Built (g : CDMRGateway) : Prop where
  xlx1 : SessionBuilt g.m_xlxNetwork1 g.m_xlx1Slot g.m_xlx1TG g.m_xlx1Base
    g.m_rpt1Rewrite g.m_xlx1Rewrite
  xlx2 : SessionBuilt g.m_xlxNetwork2 g.m_xlx2Slot g.m_xlx2TG g.m_xlx2Base
    g.m_rpt2Rewrite g.m_xlx2Rewrite
  voice1 : g.voice1 = true → g.m_xlxNetwork1 = true
  voice2 : g.voice2 = true → g.m_xlxNetwork2 = true

/-! ## Concrete configurations and frames (section 8 of the specification) -/

/-- Configuration with both XLX sessions, both voice sources and DMR-1:
XLX-1 on slot 1, TG 8, base 64000 (the end-to-end scenarios), XLX-2 on slot 2,
TG 7, base 65000, DMR-1 passing TG 3 on slot 1 unchanged, timeout 10 s. -/
def xlxConf : CConf :=
  { DMRNetwork1Enabled := true
    DMRNetwork1TGRewrites := [⟨1, 3, 1, 3, 1⟩]
    DMRNetwork1PCRewrites := []
    DMRNetwork1TypeRewrites := []
    DMRNetwork1SrcRewrites := []
    DMRNetwork2Enabled := false
    DMRNetwork2TGRewrites := []
    DMRNetwork2PCRewrites := []
    DMRNetwork2TypeRewrites := []
    DMRNetwork2SrcRewrites := []
    XLXNetwork1Enabled := true
    XLXNetwork1Slot := 1
    XLXNetwork1TG := 8
    XLXNetwork1Base := 64000
    XLXNetwork2Enabled := true
    XLXNetwork2Slot := 2
    XLXNetwork2TG := 7
    XLXNetwork2Base := 65000
    Timeout := 10
    VoiceEnabled := true
    voice1Opens := true
    voice2Opens := true }

/-- Configuration of scenario 4: no XLX session, DMR-1 with the TG rules
1:8 to 2:81 and 1:8 to 2:82, DMR-2 passing TG 9 on slot 2 unchanged,
timeout 10 s. -/
def dmrConf : CConf :=
  { DMRNetwork1Enabled := true
    DMRNetwork1TGRewrites := [⟨1, 8, 2, 81, 1⟩, ⟨1, 8, 2, 82, 1⟩]
    DMRNetwork1PCRewrites := []
    DMRNetwork1TypeRewrites := []
    DMRNetwork1SrcRewrites := []
    DMRNetwork2Enabled := true
    DMRNetwork2TGRewrites := [⟨2, 9, 2, 9, 1⟩]
    DMRNetwork2PCRewrites := []
    DMRNetwork2TypeRewrites := []
    DMRNetwork2SrcRewrites := []
    XLXNetwork1Enabled := false
    XLXNetwork1Slot := 0
    XLXNetwork1TG := 0
    XLXNetwork1Base := 0
    XLXNetwork2Enabled := false
    XLXNetwork2Slot := 0
    XLXNetwork2TG := 0
    XLXNetwork2Base := 0
    Timeout := 10
    VoiceEnabled := false
    voice1Opens := false
    voice2Opens := false }

/-- A frame with source 1234567 and an empty payload. -/
def frame (flco : FLCO) (slotNo dstId dataType : Nat) : CDMRData :=
  { slotNo := slotNo, srcId := 1234567, dstId := dstId, flco := flco,
    dataType := dataType, payload := [] }

/-- A pass of the loop in which no peer delivers anything and no time passes. -/
def idle : TickInput :=
  { modem := none, xlx1 := none, xlx2 := none, dmr1 := none, dmr2 := none,
    position := none, talkerAlias := none, voice1 := none, voice2 := none, ms := 0 }

/-- The state reached in scenario 2 once the first frame (destination 64005) has been
dispatched: XLX-1 is linked to 4005, slot 1 is held by XLX-1, `changed` is set. -/
def linked4005 : RunState :=
  { m_xlx1Reflector := 4005, m_xlx2Reflector := 4000,
    status1 := DMRGW_STATUS.DMRGWS_XLXREFLECTOR1, status2 := DMRGW_STATUS.DMRGWS_NONE,
    timer1 := ⟨10000, true, 0⟩, timer2 := ⟨10000, false, 0⟩, changed := true }

/-- A run in which XLX-2 is linked to 4005 and announced (first pass), then XLX-1 is
linked to 4005 by a frame that is not a terminator (second pass). -/
def bothLinked : List TickInput :=
  [{ idle with modem := some (frame FLCO.FLCO_USER_USER 2 65005 DT_TERMINATOR_WITH_LC) },
   { idle with modem := some (frame FLCO.FLCO_USER_USER 1 64005 0) }]

/-- The state at the end of the run `bothLinked`. -/
def bothLinkedState : RunState :=
  { m_xlx1Reflector := 4005, m_xlx2Reflector := 4005,
    status1 := DMRGW_STATUS.DMRGWS_XLXREFLECTOR1,
    status2 := DMRGW_STATUS.DMRGWS_XLXREFLECTOR2,
    timer1 := ⟨10000, true, 0⟩, timer2 := ⟨10000, true, 0⟩, changed := true }

/-- The lockout behaviour for a rewritten frame `d` offered by the peer with tag `tag`
to the destination `dest`, as a statement about the result `r` of the step:
when the slot of `d` is free or held by `tag`, `d` is written exactly once, to
`dest`, the slot becomes `tag` with its timer restarted and the other slot is
untouched; otherwise nothing is written and the state is unchanged. -/
def LockoutContract (s : RunState) (d : CDMRData) (tag : DMRGW_STATUS) (dest : Peer)
    (r : Result) : Prop :=
  ((s.status d.slotNo = some DMRGW_STATUS.DMRGWS_NONE ∨ s.status d.slotNo = some tag) →
    ∃ s2, r = some (s2, [Event.write dest d]) ∧
      s2.status d.slotNo = some tag ∧
      s2.timer d.slotNo = (s.timer d.slotNo).map CTimer.start ∧
      ∀ j, j ≠ d.slotNo → s2.status j = s.status j ∧ s2.timer j = s.timer j) ∧
  (¬ (s.status d.slotNo = some DMRGW_STATUS.DMRGWS_NONE ∨ s.status d.slotNo = some tag) →
    r = some (s, []))

/-- The state of `xlxConf` in which slot 1 is held by DMR-1 (reached when DMR-1
delivers a group frame for TG 3 on slot 1). -/
def heldByDmr1 : RunState :=
  { m_xlx1Reflector := 4000, m_xlx2Reflector := 4000,
    status1 := DMRGW_STATUS.DMRGWS_DMRNETWORK1, status2 := DMRGW_STATUS.DMRGWS_NONE,
    timer1 := ⟨10000, true, 0⟩, timer2 := ⟨10000, false, 0⟩, changed := false }

/-- Invariant of the loop for a timeout of `T` seconds: both slot timers keep the
timeout they were created with, and a slot that has an owner has its timer
running. -/
def Timed (T : Nat) (s : RunState) : Prop :=
  s.timer1.timeout = T * 1000 ∧ s.timer2.timeout = T * 1000 ∧
  (s.status1 ≠ DMRGW_STATUS.DMRGWS_NONE → s.timer1.running = true) ∧
  (s.status2 ≠ DMRGW_STATUS.DMRGWS_NONE → s.timer2.running = true)

/-- Sum of the elapsed times measured in a list of passes. -/
def totalMs : List TickInput → Nat
  | [] => 0
  | i :: is => i.ms + totalMs is

/-- A run during which slot `slot` is never claimed: in every pass the dispatch part
has a defined result and leaves the owner and the timer of the slot as they
were; only the clocking at the end of the pass acts on them. -/
def quietRun (g : CDMRGateway) (slot : Nat) : RunState → List TickInput → Prop
  | _, [] => True
  | s, i :: is =>
    ∃ s2 ev, dispatch g s i = some (s2, ev) ∧ s2.status slot = s.status slot ∧
      s2.timer slot = s.timer slot ∧ quietRun g slot (clockTimers s2 i.ms) is

/-- The state of `dmrConf` at the end of scenario 4: slot 2 is held by DMR-1 and its
timer has just been started. -/
def afterScenario4 : RunState :=
  { m_xlx1Reflector := 4000, m_xlx2Reflector := 4000,
    status1 := DMRGW_STATUS.DMRGWS_NONE, status2 := DMRGW_STATUS.DMRGWS_DMRNETWORK1,
    timer1 := ⟨10000, false, 0⟩, timer2 := ⟨10000, true, 0⟩, changed := false }

/-- Lines 50-51: the process-wide flags `m_killed` and `m_signal`. -/
structure Process where
  m_killed : Bool
  m_signal : Nat
  deriving DecidableEq, Repr

/-- Lines 54-58: `sigHandler`. -/
def sigHandler (_p : Process) (signum : Nat) : Process :=
  { m_killed := true, m_signal := signum }

/-- One pass of the dispatcher loop as the process flags see it: a signal may be
delivered while the body runs. -/
def deliver (p : Process) : Option Nat → Process
  | none => p
  | some signum => sigHandler p signum

/-- Line 339: `while (!m_killed) ...`, run against a schedule with one entry per pass
of the body (the signal delivered during that pass, if any).  The result is
the flags when the loop is left, the number of passes executed and the part of
the schedule not consumed; `none` when the schedule ends with the loop still
running. -/
def runLoop : Process → List (Option Nat) → Option (Process × Nat × List (Option Nat))
  | p, [] => if p.m_killed then some (p, 0, []) else none
  | p, sig :: rest =>
    if p.m_killed then some (p, 0, sig :: rest)
    else
      match runLoop (deliver p sig) rest with
      | none => none
      | some (q, n, r) => some (q, n + 1, r)

/-- Lines 98-117: the `do ... while (m_signal == 1)` of `main`, when every `run()`
gets as far as the dispatcher loop.  `fuel` bounds the number of calls of
`run()`; the result is the flags when `main` returns and, for each call of
`run()`, the number of passes its loop executed. -/
def mainLoop : Nat → Process → List (Option Nat) → Option (Process × List Nat)
  | 0, _, _ => none
  | fuel + 1, p, sched =>
    match runLoop { p with m_signal := 0 } sched with
    | none => none
    | some (q, n, rest) =>
      if q.m_signal = 1 then
        match mainLoop fuel q rest with
        | none => none
        | some (r, ns) => some (r, n :: ns)
      else some (q, [n])

/-- Lines 50-51: the flags when the process starts. -/
def Process.start : Process := { m_killed := false, m_signal := 0 }

/-- Configuration for scenario 5 with a rule that changes the slot: DMR-1 maps
1:8 to 2:81, DMR-2 maps TG 9 on slot 2 to TG 9 on slot 1, no XLX session,
timeout 10 s. -/
def crossConf : CConf :=
  { dmrConf with
    DMRNetwork1TGRewrites := [⟨1, 8, 2, 81, 1⟩]
    DMRNetwork2TGRewrites := [⟨2, 9, 1, 9, 1⟩] }

/-- Every frame the peers deliver in a pass carries slot 1 or 2. -/
def FramesOK (i : TickInput) : Prop :=
  ∀ f, (i.modem = some f ∨ i.xlx1 = some f ∨ i.xlx2 = some f ∨ i.dmr1 = some f ∨
      i.dmr2 = some f ∨ i.voice1 = some f ∨ i.voice2 = some f) →
    f.slotNo = 1 ∨ f.slotNo = 2

/-- Every rule of the four DMR chains, when it matches, yields a frame on slot 1 or 2. -/
def RulesOK (g : CDMRGateway) : Prop :=
  ∀ q, (q ∈ g.m_dmr1RFRewrites ∨ q ∈ g.m_dmr1NetRewrites ∨ q ∈ g.m_dmr2RFRewrites ∨
      q ∈ g.m_dmr2NetRewrites) →
    ∀ f d, q f = some d → d.slotNo = 1 ∨ d.slotNo = 2

/-- Every XLX network that was created has its primary slot in {1, 2}. -/
def SlotsOK (g : CDMRGateway) : Prop :=
  (g.m_xlxNetwork1 = true → g.m_xlx1Slot = 1 ∨ g.m_xlx1Slot = 2) ∧
  (g.m_xlxNetwork2 = true → g.m_xlx2Slot = 1 ∨ g.m_xlx2Slot = 2)

/-! ## Helper lemmas -/

theorem built_setup (c : CConf) : Built (setup c) := by
  constructor <;>
    cases h1 : c.DMRNetwork1Enabled <;> cases h2 : c.DMRNetwork2Enabled <;>
    cases h3 : c.XLXNetwork1Enabled <;> cases h4 : c.XLXNetwork2Enabled <;>
    cases h5 : c.VoiceEnabled <;>
    simp [setup, SessionBuilt, CDMRGateway.new, createDMRNetwork1, createDMRNetwork2,
      createXLXNetwork1, createXLXNetwork2, h1, h2, h3, h4, h5]

theorem claim_some (s : RunState) (i : Nat) (tag : DMRGW_STATUS) (h : i = 1 ∨ i = 2) :
    ∃ s2, s.claim i tag = some s2 ∧ s2.status i = some tag ∧
      s2.timer i = (s.timer i).map CTimer.start ∧
      (∀ j, j ≠ i → s2.status j = s.status j ∧ s2.timer j = s.timer j) ∧
      s2.m_xlx1Reflector = s.m_xlx1Reflector ∧ s2.m_xlx2Reflector = s.m_xlx2Reflector ∧
      s2.changed = s.changed := by
  rcases h with h | h <;> subst h <;>
    simp [RunState.claim, RunState.status, RunState.timer] <;>
    intro j hj <;> simp [hj]

theorem writes_append (a b : List Event) : writes (a ++ b) = writes a ++ writes b := by
  induction a with
  | nil => rfl
  | cons e a ih => cases e <;> simp [writes, ih]

theorem writes_xlx1Detect (g : CDMRGateway) (s : RunState) (f : CDMRData) :
    writes (xlx1Detect g s f).2 = [] := by
  unfold xlx1Detect
  simp only []
  split_ifs <;> simp [writes]

theorem writes_xlx2Detect (g : CDMRGateway) (s : RunState) (f : CDMRData) :
    writes (xlx2Detect g s f).2 = [] := by
  unfold xlx2Detect
  simp only []
  split_ifs <;> simp [writes]

theorem writes_xlx1Announce (g : CDMRGateway) (s : RunState) (f : CDMRData) :
    writes (xlx1Announce g s f).2 = [] := by
  unfold xlx1Announce
  split_ifs <;> simp [writes]

theorem writes_xlx2Announce (g : CDMRGateway) (s : RunState) (f : CDMRData) :
    writes (xlx2Announce g s f).2 = [] := by
  unfold xlx2Announce
  split_ifs <;> simp [writes]

theorem status_xlx1Detect (g : CDMRGateway) (s : RunState) (f : CDMRData) (j : Nat) :
    (xlx1Detect g s f).1.status j = s.status j ∧ (xlx1Detect g s f).1.timer j = s.timer j := by
  unfold xlx1Detect
  simp only []
  split_ifs <;> simp [RunState.status, RunState.timer]

theorem status_xlx2Detect (g : CDMRGateway) (s : RunState) (f : CDMRData) (j : Nat) :
    (xlx2Detect g s f).1.status j = s.status j ∧ (xlx2Detect g s f).1.timer j = s.timer j := by
  unfold xlx2Detect
  simp only []
  split_ifs <;> simp [RunState.status, RunState.timer]

theorem status_xlx1Announce (g : CDMRGateway) (s : RunState) (f : CDMRData) (j : Nat) :
    (xlx1Announce g s f).1.status j = s.status j ∧
      (xlx1Announce g s f).1.timer j = s.timer j := by
  unfold xlx1Announce
  split_ifs <;> simp [RunState.status, RunState.timer]

theorem status_xlx2Announce (g : CDMRGateway) (s : RunState) (f : CDMRData) (j : Nat) :
    (xlx2Announce g s f).1.status j = s.status j ∧
      (xlx2Announce g s f).1.timer j = s.timer j := by
  unfold xlx2Announce
  split_ifs <;> simp [RunState.status, RunState.timer]

/-- What each value of `branch` says about the frame. -/
theorem branch_spec (g : CDMRGateway) (f : CDMRData) :
    (branch g f = Branch.xlx1Voice →
      f.flco = FLCO.FLCO_GROUP ∧ f.slotNo = g.m_xlx1Slot ∧ f.dstId = g.m_xlx1TG) ∧
    (branch g f = Branch.xlx2Voice →
      f.flco = FLCO.FLCO_GROUP ∧ f.slotNo = g.m_xlx2Slot ∧ f.dstId = g.m_xlx2TG) ∧
    (branch g f = Branch.xlx1Link →
      f.flco = FLCO.FLCO_USER_USER ∧ f.slotNo = g.m_xlx1Slot ∧
        g.m_xlx1Base ≤ f.dstId ∧ f.dstId ≤ (g.m_xlx1Base + 26) % UINT) ∧
    (branch g f = Branch.xlx2Link →
      f.flco = FLCO.FLCO_USER_USER ∧ f.slotNo = g.m_xlx2Slot ∧
        g.m_xlx2Base ≤ f.dstId ∧ f.dstId ≤ (g.m_xlx2Base + 26) % UINT) := by
  unfold branch
  split_ifs <;> simp_all

theorem rewriteTG_voice (slot tg : Nat) (f : CDMRData)
    (h : f.flco = FLCO.FLCO_GROUP ∧ f.slotNo = slot ∧ f.dstId = tg) :
    CRewriteTG slot tg XLX_SLOT XLX_TG 1 f =
      some { f with slotNo := XLX_SLOT, dstId := XLX_TG } := by
  obtain ⟨h1, h2, h3⟩ := h
  simp [CRewriteTG, h1, h2, h3]

theorem fromModem_xlx1Voice (g : CDMRGateway) (hb : Built g) (s s2 : RunState) (f : CDMRData)
    (hslot : f.slotNo = 1 ∨ f.slotNo = 2) (h : branch g f = Branch.xlx1Voice)
    (hc : s.claim f.slotNo DMRGW_STATUS.DMRGWS_XLXREFLECTOR1 = some s2) :
    fromModem g s f =
      some (s2, [Event.write Peer.XLX1 { f with slotNo := XLX_SLOT, dstId := XLX_TG }]) := by
  have hf := (branch_spec g f).1 h
  rcases hb.xlx1 with ⟨hn, -, hx⟩ | ⟨-, hs, -⟩
  · simp [fromModem, h, xlx1Voice, hx, hn, hc, rewriteTG_voice _ _ f hf]
  · have := hf.2.1
    omega

theorem fromModem_xlx2Voice (g : CDMRGateway) (hb : Built g) (s s2 : RunState) (f : CDMRData)
    (hslot : f.slotNo = 1 ∨ f.slotNo = 2) (h : branch g f = Branch.xlx2Voice)
    (hc : s.claim f.slotNo DMRGW_STATUS.DMRGWS_XLXREFLECTOR2 = some s2) :
    fromModem g s f =
      some (s2, [Event.write Peer.XLX2 { f with slotNo := XLX_SLOT, dstId := XLX_TG }]) := by
  have hf := (branch_spec g f).2.1 h
  rcases hb.xlx2 with ⟨hn, -, hx⟩ | ⟨-, hs, -⟩
  · simp [fromModem, h, xlx2Voice, hx, hn, hc, rewriteTG_voice _ _ f hf]
  · have := hf.2.1
    omega

theorem fromModem_xlx1Link (g : CDMRGateway) (hb : Built g) (s s2 : RunState) (f : CDMRData)
    (hslot : f.slotNo = 1 ∨ f.slotNo = 2) (h : branch g f = Branch.xlx1Link)
    (hc : (xlx1Detect g s f).1.claim f.slotNo DMRGW_STATUS.DMRGWS_XLXREFLECTOR1 = some s2) :
    fromModem g s f =
      some ((xlx1Announce g s2 { f with slotNo := XLX_SLOT }).1,
        (xlx1Detect g s f).2 ++ [Event.write Peer.XLX1 { f with slotNo := XLX_SLOT }] ++
          (xlx1Announce g s2 { f with slotNo := XLX_SLOT }).2) := by
  have hf := (branch_spec g f).2.2.1 h
  rcases hb.xlx1 with ⟨hn, -, hx⟩ | ⟨-, hs, -⟩
  · simp [fromModem, h, xlx1Link, hn, hc]
  · have := hf.2.1
    omega

theorem fromModem_xlx2Link (g : CDMRGateway) (hb : Built g) (s s2 : RunState) (f : CDMRData)
    (hslot : f.slotNo = 1 ∨ f.slotNo = 2) (h : branch g f = Branch.xlx2Link)
    (hc : (xlx2Detect g s f).1.claim f.slotNo DMRGW_STATUS.DMRGWS_XLXREFLECTOR2 = some s2) :
    fromModem g s f =
      some ((xlx2Announce g s2 { f with slotNo := XLX_SLOT }).1,
        (xlx2Detect g s f).2 ++ [Event.write Peer.XLX2 { f with slotNo := XLX_SLOT }] ++
          (xlx2Announce g s2 { f with slotNo := XLX_SLOT }).2) := by
  have hf := (branch_spec g f).2.2.2 h
  rcases hb.xlx2 with ⟨hn, -, hx⟩ | ⟨-, hs, -⟩
  · simp [fromModem, h, xlx2Link, hn, hc]
  · have := hf.2.1
    omega

/-! ## C1 -/

/-- C1: a modem frame on slot 1 or 2 that takes an XLX branch of session k (voice or
link control) is written exactly once, to XLX-k and to no other peer, whatever
the slot owners were; afterwards the slot the frame arrived on belongs to
XlxRefl-k with its timer restarted, and the other slot keeps its owner. -/
theorem xlx_branches_assert_ownership (c : CConf) (s : RunState) (f : CDMRData)
    (hslot : f.slotNo = 1 ∨ f.slotNo = 2) :
    ((branch (setup c) f = Branch.xlx1Voice ∨ branch (setup c) f = Branch.xlx1Link) →
      ∃ s2 ev d, fromModem (setup c) s f = some (s2, ev) ∧
        s2.status f.slotNo = some DMRGW_STATUS.DMRGWS_XLXREFLECTOR1 ∧
        s2.timer f.slotNo = (s.timer f.slotNo).map CTimer.start ∧
        writes ev = [(Peer.XLX1, d)] ∧
        ∀ j, j ≠ f.slotNo → s2.status j = s.status j) ∧
    ((branch (setup c) f = Branch.xlx2Voice ∨ branch (setup c) f = Branch.xlx2Link) →
      ∃ s2 ev d, fromModem (setup c) s f = some (s2, ev) ∧
        s2.status f.slotNo = some DMRGW_STATUS.DMRGWS_XLXREFLECTOR2 ∧
        s2.timer f.slotNo = (s.timer f.slotNo).map CTimer.start ∧
        writes ev = [(Peer.XLX2, d)] ∧
        ∀ j, j ≠ f.slotNo → s2.status j = s.status j) := by
  have hb := built_setup c
  generalize setup c = g at hb ⊢
  refine ⟨fun h => ?_, fun h => ?_⟩
  · rcases h with hv | hl
    · obtain ⟨s2, hc, h1, h2, h3, -⟩ :=
        claim_some s f.slotNo DMRGW_STATUS.DMRGWS_XLXREFLECTOR1 hslot
      exact ⟨s2, _, _, fromModem_xlx1Voice g hb s s2 f hslot hv hc, h1, h2, rfl,
        fun j hj => (h3 j hj).1⟩
    · obtain ⟨s2, hc, h1, h2, h3, -⟩ :=
        claim_some (xlx1Detect g s f).1 f.slotNo DMRGW_STATUS.DMRGWS_XLXREFLECTOR1 hslot
      refine ⟨_, _, { f with slotNo := XLX_SLOT },
        fromModem_xlx1Link g hb s s2 f hslot hl hc, ?_, ?_, ?_, ?_⟩
      · rw [(status_xlx1Announce _ _ _ _).1, h1]
      · rw [(status_xlx1Announce _ _ _ _).2, h2, (status_xlx1Detect _ _ _ _).2]
      · simp [writes_append, writes_xlx1Detect, writes_xlx1Announce, writes]
      · intro j hj
        rw [(status_xlx1Announce _ _ _ _).1, (h3 j hj).1, (status_xlx1Detect _ _ _ _).1]
  · rcases h with hv | hl
    · obtain ⟨s2, hc, h1, h2, h3, -⟩ :=
        claim_some s f.slotNo DMRGW_STATUS.DMRGWS_XLXREFLECTOR2 hslot
      exact ⟨s2, _, _, fromModem_xlx2Voice g hb s s2 f hslot hv hc, h1, h2, rfl,
        fun j hj => (h3 j hj).1⟩
    · obtain ⟨s2, hc, h1, h2, h3, -⟩ :=
        claim_some (xlx2Detect g s f).1 f.slotNo DMRGW_STATUS.DMRGWS_XLXREFLECTOR2 hslot
      refine ⟨_, _, { f with slotNo := XLX_SLOT },
        fromModem_xlx2Link g hb s s2 f hslot hl hc, ?_, ?_, ?_, ?_⟩
      · rw [(status_xlx2Announce _ _ _ _).1, h1]
      · rw [(status_xlx2Announce _ _ _ _).2, h2, (status_xlx2Detect _ _ _ _).2]
      · simp [writes_append, writes_xlx2Detect, writes_xlx2Announce, writes]
      · intro j hj
        rw [(status_xlx2Announce _ _ _ _).1, (h3 j hj).1, (status_xlx2Detect _ _ _ _).1]

/-- Scenario 1 for C1: the group frame on slot 1, TG 8 takes the XLX-1 voice branch. -/
theorem xlx_branches_assert_ownership_witness :
    ∃ s2 ev d, fromModem (setup xlxConf) (initial xlxConf) (frame FLCO.FLCO_GROUP 1 8 0) =
        some (s2, ev) ∧
      s2.status (frame FLCO.FLCO_GROUP 1 8 0).slotNo = some DMRGW_STATUS.DMRGWS_XLXREFLECTOR1 ∧
      s2.timer (frame FLCO.FLCO_GROUP 1 8 0).slotNo =
        ((initial xlxConf).timer (frame FLCO.FLCO_GROUP 1 8 0).slotNo).map CTimer.start ∧
      writes ev = [(Peer.XLX1, d)] ∧
      ∀ j, j ≠ (frame FLCO.FLCO_GROUP 1 8 0).slotNo → s2.status j = (initial xlxConf).status j :=
  (xlx_branches_assert_ownership xlxConf (initial xlxConf) (frame FLCO.FLCO_GROUP 1 8 0)
    (by decide)).1 (by decide)

/-! ## C2 -/

theorem requested_eq (dstId base : Nat) (hb : base < UINT) (hlo : base ≤ dstId)
    (hhi : dstId ≤ (base + 26) % UINT) :
    requested dstId base = 4000 + (dstId - base) ∧ dstId - base ≤ 26 := by
  unfold requested
  unfold UINT at *
  omega

/-- C2: for a UserToUser frame on XLX-1's slot whose destination lies in
[base, base+26] (all values 32-bit), the frame takes the XLX-1 link-control
branch, N = 4000 + (dstId - base) lies in [4000, 4026] and is exactly what the
wrapping computation of lines 359-360 yields, and after the change detection
the reflector is N; if N differs from the previous reflector the flag is set
and exactly one line is logged (Unlinking for 4000, Linking to N otherwise),
and if N equals it the state is untouched and nothing is logged. -/
theorem xlx1_link_decoding (g : CDMRGateway) (s : RunState) (f : CDMRData)
    (hbase : g.m_xlx1Base < UINT)
    (hu : f.flco = FLCO.FLCO_USER_USER) (hs : f.slotNo = g.m_xlx1Slot)
    (hlo : g.m_xlx1Base ≤ f.dstId) (hhi : f.dstId ≤ (g.m_xlx1Base + 26) % UINT) :
    branch g f = Branch.xlx1Link ∧
    4000 ≤ 4000 + (f.dstId - g.m_xlx1Base) ∧ 4000 + (f.dstId - g.m_xlx1Base) ≤ 4026 ∧
    requested f.dstId g.m_xlx1Base = 4000 + (f.dstId - g.m_xlx1Base) ∧
    (xlx1Detect g s f).1.m_xlx1Reflector = 4000 + (f.dstId - g.m_xlx1Base) ∧
    (4000 + (f.dstId - g.m_xlx1Base) ≠ s.m_xlx1Reflector →
      (xlx1Detect g s f).1.changed = true ∧
      (xlx1Detect g s f).2 =
        [if 4000 + (f.dstId - g.m_xlx1Base) = 4000 then Event.logUnlinking 1
          else Event.logLinking 1 (4000 + (f.dstId - g.m_xlx1Base))]) ∧
    (4000 + (f.dstId - g.m_xlx1Base) = s.m_xlx1Reflector →
      (xlx1Detect g s f).1 = s ∧ (xlx1Detect g s f).2 = []) := by
  obtain ⟨hr, h26⟩ := requested_eq f.dstId g.m_xlx1Base hbase hlo hhi
  refine ⟨?_, by omega, by omega, hr, ?_, ?_, ?_⟩
  · simp [branch, hu, hs, hlo, hhi]
  · by_cases h : 4000 + (f.dstId - g.m_xlx1Base) = s.m_xlx1Reflector
    · simp [xlx1Detect, hr, h]
    · simp [xlx1Detect, hr, h]
  · intro h
    simp [xlx1Detect, hr, h]
  · intro h
    simp [xlx1Detect, hr, h]

/-- Scenario 2 for C2: destination 64005 with base 64000 requests reflector 4005. -/
theorem xlx1_link_decoding_witness :
    branch (setup xlxConf) (frame FLCO.FLCO_USER_USER 1 64005 0) = Branch.xlx1Link ∧
    (xlx1Detect (setup xlxConf) (initial xlxConf)
      (frame FLCO.FLCO_USER_USER 1 64005 0)).1.m_xlx1Reflector = 4005 ∧
    (xlx1Detect (setup xlxConf) (initial xlxConf)
      (frame FLCO.FLCO_USER_USER 1 64005 0)).2 = [Event.logLinking 1 4005] := by
  have h := xlx1_link_decoding (setup xlxConf) (initial xlxConf)
    (frame FLCO.FLCO_USER_USER 1 64005 0) (by decide) rfl rfl (by decide) (by decide)
  exact ⟨h.1, h.2.2.2.2.1, (h.2.2.2.2.2.1 (by decide)).2⟩

/-! ## C3 -/

/-- C3 (the code departs from the claim): after XLX-1 has been linked to reflector
4005, an XLX-2 link command for reflector 4005 (destination 65005, base 65000)
arrives while `m_xlx2Reflector` is 4000.  The request differs from XLX-2's own
reflector, yet because line 393 compares with `m_xlx1Reflector` the run leaves
`m_xlx2Reflector` at 4000 and logs nothing for XLX-2. -/
theorem xlx2_link_judged_against_xlx1_reflector :
    branch (setup xlxConf) (frame FLCO.FLCO_USER_USER 2 65005 0) = Branch.xlx2Link ∧
    requested 65005 (setup xlxConf).m_xlx2Base = 4005 ∧
    runTicks (setup xlxConf) (initial xlxConf)
      [{ idle with modem := some (frame FLCO.FLCO_USER_USER 1 64005 0) },
       { idle with modem := some (frame FLCO.FLCO_USER_USER 2 65005 0) }] =
    some ({ m_xlx1Reflector := 4005, m_xlx2Reflector := 4000,
            status1 := DMRGW_STATUS.DMRGWS_XLXREFLECTOR1,
            status2 := DMRGW_STATUS.DMRGWS_XLXREFLECTOR2,
            timer1 := ⟨10000, true, 0⟩, timer2 := ⟨10000, true, 0⟩,
            changed := true },
      [Event.logLinking 1 4005,
       Event.write Peer.XLX1 (frame FLCO.FLCO_USER_USER 2 64005 0),
       Event.write Peer.XLX2 (frame FLCO.FLCO_USER_USER 2 65005 0)]) := by
  decide

/-! ## C4 -/

/-- C4: a frame taking the link-control branch of XLX-k is written to XLX-k, and to
no other peer, with its slot set to 2 and every other field (destination,
source, call type, data type, payload) as read from the modem, whatever the
reflectors and the flag were before. -/
theorem link_control_forwarded_with_slot_rewritten (c : CConf) (s : RunState) (f : CDMRData)
    (hslot : f.slotNo = 1 ∨ f.slotNo = 2) :
    (branch (setup c) f = Branch.xlx1Link →
      ∃ s2 ev, fromModem (setup c) s f = some (s2, ev) ∧
        writes ev = [(Peer.XLX1, { f with slotNo := 2 })]) ∧
    (branch (setup c) f = Branch.xlx2Link →
      ∃ s2 ev, fromModem (setup c) s f = some (s2, ev) ∧
        writes ev = [(Peer.XLX2, { f with slotNo := 2 })]) := by
  have hb := built_setup c
  generalize setup c = g at hb ⊢
  refine ⟨fun hl => ?_, fun hl => ?_⟩
  · obtain ⟨s2, hc, -⟩ :=
      claim_some (xlx1Detect g s f).1 f.slotNo DMRGW_STATUS.DMRGWS_XLXREFLECTOR1 hslot
    refine ⟨_, _, fromModem_xlx1Link g hb s s2 f hslot hl hc, ?_⟩
    simp [writes_append, writes_xlx1Detect, writes_xlx1Announce, writes, XLX_SLOT]
  · obtain ⟨s2, hc, -⟩ :=
      claim_some (xlx2Detect g s f).1 f.slotNo DMRGW_STATUS.DMRGWS_XLXREFLECTOR2 hslot
    refine ⟨_, _, fromModem_xlx2Link g hb s s2 f hslot hl hc, ?_⟩
    simp [writes_append, writes_xlx2Detect, writes_xlx2Announce, writes, XLX_SLOT]

/-- Scenario 2 for C4: the frame for destination 64005 reaches XLX-1 on slot 2 with
destination 64005. -/
theorem link_control_forwarded_with_slot_rewritten_witness :
    ∃ s2 ev, fromModem (setup xlxConf) (initial xlxConf)
        (frame FLCO.FLCO_USER_USER 1 64005 0) = some (s2, ev) ∧
      writes ev = [(Peer.XLX1, { frame FLCO.FLCO_USER_USER 1 64005 0 with slotNo := 2 })] :=
  (link_control_forwarded_with_slot_rewritten xlxConf (initial xlxConf)
    (frame FLCO.FLCO_USER_USER 1 64005 0) (by decide)).1 (by decide)

/-! ## C5 -/

theorem voiceCalls_append (k : Nat) (a b : List Event) :
    voiceCalls k (a ++ b) = voiceCalls k a ++ voiceCalls k b := by
  induction a with
  | nil => rfl
  | cons e a ih =>
    cases e <;> simp [voiceCalls, ih]
    all_goals split_ifs <;> simp

theorem voiceCalls_xlx1Detect (k : Nat) (g : CDMRGateway) (s : RunState) (f : CDMRData) :
    voiceCalls k (xlx1Detect g s f).2 = [] := by
  unfold xlx1Detect
  simp only []
  split_ifs <;> simp [voiceCalls]

theorem voiceCalls_xlx2Detect (k : Nat) (g : CDMRGateway) (s : RunState) (f : CDMRData) :
    voiceCalls k (xlx2Detect g s f).2 = [] := by
  unfold xlx2Detect
  simp only []
  split_ifs <;> simp [voiceCalls]

/-- C5: with `voice1` present, a frame taking the XLX-1 link-control branch causes
exactly one call on the voice source when it is a TerminatorWithLC frame and
`changed` is true after the change detection: `unlinked()` if the reflector is
4000, `linkedTo(reflector)` otherwise, and `changed` is false afterwards.  In
every other case no call is made and `changed` keeps the value the change
detection left. -/
theorem xlx1_confirmation_tone (c : CConf) (s : RunState) (f : CDMRData)
    (hslot : f.slotNo = 1 ∨ f.slotNo = 2) (hv : (setup c).voice1 = true)
    (hl : branch (setup c) f = Branch.xlx1Link) :
    ∃ s2 ev, fromModem (setup c) s f = some (s2, ev) ∧
      s2.m_xlx1Reflector = (xlx1Detect (setup c) s f).1.m_xlx1Reflector ∧
      ((f.dataType = DT_TERMINATOR_WITH_LC ∧ (xlx1Detect (setup c) s f).1.changed = true) →
        voiceCalls 1 ev =
          [if s2.m_xlx1Reflector = 4000 then Event.unlinked 1
            else Event.linkedTo 1 s2.m_xlx1Reflector] ∧
        s2.changed = false) ∧
      (¬ (f.dataType = DT_TERMINATOR_WITH_LC ∧ (xlx1Detect (setup c) s f).1.changed = true) →
        voiceCalls 1 ev = [] ∧ s2.changed = (xlx1Detect (setup c) s f).1.changed) := by
  have hb := built_setup c
  generalize setup c = g at hb hv hl ⊢
  obtain ⟨s2, hc, -, -, -, hr1, -, hch⟩ :=
    claim_some (xlx1Detect g s f).1 f.slotNo DMRGW_STATUS.DMRGWS_XLXREFLECTOR1 hslot
  refine ⟨_, _, fromModem_xlx1Link g hb s s2 f hslot hl hc, ?_, ?_, ?_⟩
  · rw [← hr1]
    unfold xlx1Announce
    split_ifs <;> rfl
  · rintro ⟨ht, hd⟩
    rw [← hch] at hd
    simp only [voiceCalls_append, voiceCalls_xlx1Detect, voiceCalls, xlx1Announce, hv, ht, hd,
      if_true, List.nil_append]
    constructor
    · split_ifs <;> simp [voiceCalls]
    · trivial
  · intro hn
    rw [← hch] at hn ⊢
    by_cases ht : f.dataType = DT_TERMINATOR_WITH_LC
    · have hd : s2.changed = false := by
        cases h : s2.changed
        · rfl
        · exact absurd ⟨ht, h⟩ hn
      simp [voiceCalls_append, voiceCalls_xlx1Detect, voiceCalls, xlx1Announce, hv, ht, hd]
    · simp [voiceCalls_append, voiceCalls_xlx1Detect, voiceCalls, xlx1Announce, hv, ht]

/-- Scenario 2 for C5: after the frame for destination 64005, the terminator frame
makes the single call `linkedTo(4005)` and clears the flag. -/
theorem xlx1_confirmation_tone_witness :
    fromModem (setup xlxConf) (initial xlxConf) (frame FLCO.FLCO_USER_USER 1 64005 0) =
      some (linked4005, [Event.logLinking 1 4005,
        Event.write Peer.XLX1 (frame FLCO.FLCO_USER_USER 2 64005 0)]) ∧
    ∃ s2 ev, fromModem (setup xlxConf) linked4005
        (frame FLCO.FLCO_USER_USER 1 64005 DT_TERMINATOR_WITH_LC) = some (s2, ev) ∧
      voiceCalls 1 ev = [Event.linkedTo 1 4005] ∧ s2.changed = false := by
  refine ⟨by decide, ?_⟩
  obtain ⟨s2, ev, h, hr, hyes, -⟩ := xlx1_confirmation_tone xlxConf linked4005
    (frame FLCO.FLCO_USER_USER 1 64005 DT_TERMINATOR_WITH_LC) (by decide) (by decide)
    (by decide)
  have hr2 : s2.m_xlx1Reflector = 4005 := by rw [hr]; decide
  obtain ⟨h1, h2⟩ := hyes ⟨rfl, by decide⟩
  rw [hr2] at h1
  exact ⟨s2, ev, h, h1, h2⟩

/-! ## C6 -/

/-- C6 as stated fails: in the run `bothLinked` the last link command that changed a
reflector is an XLX-1 command (XLX-2's flag, had it one, was cleared by the
announcement of the first pass).  The next frame is an XLX-2 link-control
terminator for reflector 4005, which XLX-2 is already linked to: it leaves
`m_xlx2Reflector` unchanged and logs nothing, and yet `voice2->linkedTo(4005)`
is called, because the flag set by the XLX-1 command is the one XLX-2 tests. -/
theorem changed_flag_is_shared_counterexample :
    runTicks (setup xlxConf) (initial xlxConf) bothLinked =
      some (bothLinkedState,
        [Event.logLinking 2 4005,
         Event.write Peer.XLX2 (frame FLCO.FLCO_USER_USER 2 65005 DT_TERMINATOR_WITH_LC),
         Event.linkedTo 2 4005,
         Event.logLinking 1 4005,
         Event.write Peer.XLX1 (frame FLCO.FLCO_USER_USER 2 64005 0)]) ∧
    branch (setup xlxConf) (frame FLCO.FLCO_USER_USER 2 65005 DT_TERMINATOR_WITH_LC) =
      Branch.xlx2Link ∧
    fromModem (setup xlxConf) bothLinkedState
        (frame FLCO.FLCO_USER_USER 2 65005 DT_TERMINATOR_WITH_LC) =
      some ({ bothLinkedState with changed := false },
        [Event.write Peer.XLX2 (frame FLCO.FLCO_USER_USER 2 65005 DT_TERMINATOR_WITH_LC),
         Event.linkedTo 2 4005]) := by
  decide

theorem changed_xlx1Detect (g : CDMRGateway) (s : RunState) (f : CDMRData) :
    (xlx1Detect g s f).1.changed = true ↔ (s.changed = true ∨ (xlx1Detect g s f).2 ≠ []) := by
  unfold xlx1Detect
  simp only []
  split_ifs <;> simp

theorem changed_xlx2Detect (g : CDMRGateway) (s : RunState) (f : CDMRData) :
    (xlx2Detect g s f).1.changed = true ↔ (s.changed = true ∨ (xlx2Detect g s f).2 ≠ []) := by
  unfold xlx2Detect
  simp only []
  split_ifs <;> simp

theorem voiceCalls_xlx1Announce (g : CDMRGateway) (s : RunState) (f : CDMRData) :
    voiceCalls 2 (xlx1Announce g s f).2 = [] ∧
    (g.voice1 = true →
      (voiceCalls 1 (xlx1Announce g s f).2 ≠ [] ↔
        (f.dataType = DT_TERMINATOR_WITH_LC ∧ s.changed = true)) ∧
      (voiceCalls 1 (xlx1Announce g s f).2 ≠ [] → (xlx1Announce g s f).1.changed = false)) := by
  unfold xlx1Announce
  split_ifs <;> simp_all [voiceCalls]

theorem voiceCalls_xlx2Announce (g : CDMRGateway) (s : RunState) (f : CDMRData) :
    voiceCalls 1 (xlx2Announce g s f).2 = [] ∧
    (g.voice2 = true →
      (voiceCalls 2 (xlx2Announce g s f).2 ≠ [] ↔
        (f.dataType = DT_TERMINATOR_WITH_LC ∧ s.changed = true)) ∧
      (voiceCalls 2 (xlx2Announce g s f).2 ≠ [] → (xlx2Announce g s f).1.changed = false)) := by
  unfold xlx2Announce
  split_ifs <;> simp_all [voiceCalls]

/-- C6 as amended: there is one `changed` flag, shared by the two XLX sessions.  With
voice source k present, a frame taking session k's link-control branch makes a
call on voice source k if and only if it is a TerminatorWithLC frame and the
shared flag is true after that frame's change detection, that is, the flag was
already true before the frame (whichever session had set it) or this frame's
change detection logged a change; the flag is then false.  Such a frame never
makes a call on the other session's voice source. -/
theorem changed_flag_is_shared (c : CConf) (s : RunState) (f : CDMRData)
    (hslot : f.slotNo = 1 ∨ f.slotNo = 2) :
    (branch (setup c) f = Branch.xlx1Link → (setup c).voice1 = true →
      ∃ s2 ev, fromModem (setup c) s f = some (s2, ev) ∧
        (voiceCalls 1 ev ≠ [] ↔
          (f.dataType = DT_TERMINATOR_WITH_LC ∧
            (s.changed = true ∨ (xlx1Detect (setup c) s f).2 ≠ []))) ∧
        (voiceCalls 1 ev ≠ [] → s2.changed = false) ∧
        voiceCalls 2 ev = []) ∧
    (branch (setup c) f = Branch.xlx2Link → (setup c).voice2 = true →
      ∃ s2 ev, fromModem (setup c) s f = some (s2, ev) ∧
        (voiceCalls 2 ev ≠ [] ↔
          (f.dataType = DT_TERMINATOR_WITH_LC ∧
            (s.changed = true ∨ (xlx2Detect (setup c) s f).2 ≠ []))) ∧
        (voiceCalls 2 ev ≠ [] → s2.changed = false) ∧
        voiceCalls 1 ev = []) := by
  have hb := built_setup c
  generalize setup c = g at hb ⊢
  refine ⟨fun hl hv => ?_, fun hl hv => ?_⟩
  · obtain ⟨s2, hc, -, -, -, -, -, hch⟩ :=
      claim_some (xlx1Detect g s f).1 f.slotNo DMRGW_STATUS.DMRGWS_XLXREFLECTOR1 hslot
    obtain ⟨ha2, ha⟩ := voiceCalls_xlx1Announce g s2 { f with slotNo := XLX_SLOT }
    obtain ⟨ha1, ha3⟩ := ha hv
    refine ⟨_, _, fromModem_xlx1Link g hb s s2 f hslot hl hc, ?_, ?_, ?_⟩
    · simp only [voiceCalls_append, voiceCalls_xlx1Detect, voiceCalls, List.nil_append]
      rw [ha1, hch, changed_xlx1Detect]
    · simp only [voiceCalls_append, voiceCalls_xlx1Detect, voiceCalls, List.nil_append]
      exact ha3
    · simp only [voiceCalls_append, voiceCalls_xlx1Detect, voiceCalls, List.nil_append]
      exact ha2
  · obtain ⟨s2, hc, -, -, -, -, -, hch⟩ :=
      claim_some (xlx2Detect g s f).1 f.slotNo DMRGW_STATUS.DMRGWS_XLXREFLECTOR2 hslot
    obtain ⟨ha2, ha⟩ := voiceCalls_xlx2Announce g s2 { f with slotNo := XLX_SLOT }
    obtain ⟨ha1, ha3⟩ := ha hv
    refine ⟨_, _, fromModem_xlx2Link g hb s s2 f hslot hl hc, ?_, ?_, ?_⟩
    · simp only [voiceCalls_append, voiceCalls_xlx2Detect, voiceCalls, List.nil_append]
      rw [ha1, hch, changed_xlx2Detect]
    · simp only [voiceCalls_append, voiceCalls_xlx2Detect, voiceCalls, List.nil_append]
      exact ha3
    · simp only [voiceCalls_append, voiceCalls_xlx2Detect, voiceCalls, List.nil_append]
      exact ha2

/-- The run of the counterexample for C6 as amended: the flag set by the XLX-1
command makes the XLX-2 terminator call voice source 2. -/
theorem changed_flag_is_shared_witness :
    ∃ s2 ev, fromModem (setup xlxConf) bothLinkedState
        (frame FLCO.FLCO_USER_USER 2 65005 DT_TERMINATOR_WITH_LC) = some (s2, ev) ∧
      voiceCalls 2 ev ≠ [] ∧ s2.changed = false ∧ voiceCalls 1 ev = [] := by
  obtain ⟨s2, ev, h, h1, h2, h3⟩ := (changed_flag_is_shared xlxConf bothLinkedState
    (frame FLCO.FLCO_USER_USER 2 65005 DT_TERMINATOR_WITH_LC) (by decide)).2
    (by decide) (by decide)
  have hne : voiceCalls 2 ev ≠ [] := h1.mpr ⟨rfl, Or.inl rfl⟩
  exact ⟨s2, ev, h, hne, h2 hne, h3⟩

/-! ## C7 -/

theorem guardedWrite_contract (s : RunState) (d : CDMRData) (tag : DMRGW_STATUS) (dest : Peer)
    (hd : d.slotNo = 1 ∨ d.slotNo = 2) :
    LockoutContract s d tag dest (guardedWrite s d tag dest) := by
  obtain ⟨s2, hc, h1, h2, h3, -⟩ := claim_some s d.slotNo tag hd
  have hst : ∃ st, s.status d.slotNo = some st := by
    rcases hd with h | h <;> simp [RunState.status, h]
  obtain ⟨st, hst⟩ := hst
  constructor
  · intro h
    have h' : st = DMRGW_STATUS.DMRGWS_NONE ∨ st = tag := by
      rw [hst] at h
      simpa using h
    refine ⟨s2, ?_, h1, h2, h3⟩
    simp [guardedWrite, hst, h', hc]
  · intro h
    have h' : ¬ (st = DMRGW_STATUS.DMRGWS_NONE ∨ st = tag) := by
      rw [hst] at h
      simpa using h
    simp [guardedWrite, hst, h']

/-- C7: when the chain of DMR-k matches and yields the frame `d` on slot 1 or 2, the
slot tested and claimed is the slot `d` carries after the rewrite: if it is
free or held by DmrNet-k, `d` is written exactly once to the destination (DMR-k
for a modem frame reaching step 1e / 1f, the modem for a frame read from
DMR-k), the slot becomes DmrNet-k and its timer is restarted; otherwise nothing
is written and owners and timers are unchanged. -/
theorem dmr_slot_lockout (g : CDMRGateway) (s : RunState) (f d : CDMRData)
    (hd : d.slotNo = 1 ∨ d.slotNo = 2) :
    (g.m_dmrNetwork1 = true → branch g f = Branch.dmr →
      (processChain g.m_dmr1RFRewrites f).1 = some d →
      LockoutContract s d DMRGW_STATUS.DMRGWS_DMRNETWORK1 Peer.DMR1 (fromModem g s f)) ∧
    (g.m_dmrNetwork2 = true → branch g f = Branch.dmr →
      (g.m_dmrNetwork1 = false ∨ (processChain g.m_dmr1RFRewrites f).1 = none) →
      (processChain g.m_dmr2RFRewrites f).1 = some d →
      LockoutContract s d DMRGW_STATUS.DMRGWS_DMRNETWORK2 Peer.DMR2 (fromModem g s f)) ∧
    (g.m_dmrNetwork1 = true → (processChain g.m_dmr1NetRewrites f).1 = some d →
      LockoutContract s d DMRGW_STATUS.DMRGWS_DMRNETWORK1 Peer.Modem
        (fromDMR1 g s (some f))) ∧
    (g.m_dmrNetwork2 = true → (processChain g.m_dmr2NetRewrites f).1 = some d →
      LockoutContract s d DMRGW_STATUS.DMRGWS_DMRNETWORK2 Peer.Modem
        (fromDMR2 g s (some f))) := by
  refine ⟨fun hn hb hm => ?_, fun hn hb h1 hm => ?_, fun hn hm => ?_, fun hn hm => ?_⟩
  · have : fromModem g s f = guardedWrite s d DMRGW_STATUS.DMRGWS_DMRNETWORK1 Peer.DMR1 := by
      simp [fromModem, hb, modemToDMR, hn, hm]
    rw [this]
    exact guardedWrite_contract s d _ _ hd
  · have : fromModem g s f = guardedWrite s d DMRGW_STATUS.DMRGWS_DMRNETWORK2 Peer.DMR2 := by
      rcases h1 with h1 | h1 <;> simp [fromModem, hb, modemToDMR, modemToDMR2, hn, hm, h1]
    rw [this]
    exact guardedWrite_contract s d _ _ hd
  · have : fromDMR1 g s (some f) =
        guardedWrite s d DMRGW_STATUS.DMRGWS_DMRNETWORK1 Peer.Modem := by
      simp [fromDMR1, hn, hm]
    rw [this]
    exact guardedWrite_contract s d _ _ hd
  · have : fromDMR2 g s (some f) =
        guardedWrite s d DMRGW_STATUS.DMRGWS_DMRNETWORK2 Peer.Modem := by
      simp [fromDMR2, hn, hm]
    rw [this]
    exact guardedWrite_contract s d _ _ hd

/-- Scenario 4 for C7: the group frame on slot 1, TG 8 is rewritten by DMR-1's first
rule to slot 2, TG 81; slot 2 is free, so the frame goes to DMR-1. -/
theorem dmr_slot_lockout_witness :
    ∃ s2, fromModem (setup dmrConf) (initial dmrConf) (frame FLCO.FLCO_GROUP 1 8 0) =
        some (s2, [Event.write Peer.DMR1 (frame FLCO.FLCO_GROUP 2 81 0)]) ∧
      s2.status 2 = some DMRGW_STATUS.DMRGWS_DMRNETWORK1 ∧
      s2.timer 2 = ((initial dmrConf).timer 2).map CTimer.start ∧
      ∀ j, j ≠ 2 → s2.status j = (initial dmrConf).status j ∧
        s2.timer j = (initial dmrConf).timer j :=
  ((dmr_slot_lockout (setup dmrConf) (initial dmrConf) (frame FLCO.FLCO_GROUP 1 8 0)
    (frame FLCO.FLCO_GROUP 2 81 0) (by decide)).1 (by decide) (by decide) (by decide)).1
    (Or.inl (by decide))

/-! ## C8 -/

theorem rewriteTG_slot (a b x y n : Nat) (f d : CDMRData) (h : CRewriteTG a b x y n f = some d) :
    d.slotNo = x := by
  unfold CRewriteTG at h
  split_ifs at h
  simp only [Option.some.injEq] at h
  rw [← h]

theorem status_some (s : RunState) (i : Nat) (h : i = 1 ∨ i = 2) :
    ∃ st, s.status i = some st := by
  rcases h with h | h <;> simp [RunState.status, h]

theorem mem_writes_singleton (p q : Peer) (d e : CDMRData)
    (h : (p, d) ∈ writes [Event.write q e]) : p = q ∧ d = e := by
  simpa [writes] using h

theorem guardedWrite_modem (s : RunState) (d : CDMRData) (tag : DMRGW_STATUS)
    (hd : d.slotNo = 1 ∨ d.slotNo = 2) :
    ∃ s2 ev, guardedWrite s d tag Peer.Modem = some (s2, ev) ∧
      (∀ p e, (p, e) ∈ writes ev → p = Peer.Modem ∧ e = d ∧
        (s.status e.slotNo = some DMRGW_STATUS.DMRGWS_NONE ∨ s.status e.slotNo = some tag)) ∧
      (writes ev = [] → s2 = s) := by
  obtain ⟨hyes, hno⟩ := guardedWrite_contract s d tag Peer.Modem hd
  by_cases h : s.status d.slotNo = some DMRGW_STATUS.DMRGWS_NONE ∨ s.status d.slotNo = some tag
  · obtain ⟨s2, hr, -⟩ := hyes h
    refine ⟨s2, _, hr, ?_, ?_⟩
    · intro p e hm
      obtain ⟨hp, he⟩ := mem_writes_singleton p _ e _ hm
      subst he
      exact ⟨hp, rfl, h⟩
    · intro hw
      simp [writes] at hw
  · refine ⟨s, [], hno h, ?_, fun _ => rfl⟩
    intro p e hm
    simp [writes] at hm

theorem fromXLX1_modem (g : CDMRGateway) (hb : Built g) (s : RunState) (f : CDMRData)
    (hx : g.m_xlxNetwork1 = true → g.m_xlx1Slot = 1 ∨ g.m_xlx1Slot = 2) :
    ∃ s2 ev, fromXLX1 g s (some f) = some (s2, ev) ∧
      (∀ p e, (p, e) ∈ writes ev → p = Peer.Modem ∧ e.slotNo = g.m_xlx1Slot ∧
        (s.status e.slotNo = some DMRGW_STATUS.DMRGWS_NONE ∨
          s.status e.slotNo = some DMRGW_STATUS.DMRGWS_XLXREFLECTOR1)) ∧
      (writes ev = [] → s2 = s) := by
  rcases hb.xlx1 with ⟨hn, hr, -⟩ | ⟨hn, -⟩
  · obtain ⟨st, hst⟩ := status_some s g.m_xlx1Slot (hx hn)
    obtain ⟨s2, hc, -⟩ := claim_some s g.m_xlx1Slot DMRGW_STATUS.DMRGWS_XLXREFLECTOR1 (hx hn)
    by_cases hok : st = DMRGW_STATUS.DMRGWS_NONE ∨ st = DMRGW_STATUS.DMRGWS_XLXREFLECTOR1
    · cases hm : CRewriteTG XLX_SLOT XLX_TG g.m_xlx1Slot g.m_xlx1TG 1 f with
      | none =>
        refine ⟨s, [Event.logUnexpected 1 f.slotNo f.flco f.dstId], ?_, ?_, fun _ => rfl⟩
        · simp [fromXLX1, hn, hst, hok, hr, hm]
        · intro p e h
          simp [writes] at h
      | some d =>
        have hds := rewriteTG_slot _ _ _ _ _ f d hm
        refine ⟨s2, [Event.write Peer.Modem d], ?_, ?_, ?_⟩
        · simp [fromXLX1, hn, hst, hok, hr, hm, hc]
        · intro p e h
          obtain ⟨hp, he⟩ := mem_writes_singleton p _ e _ h
          subst he
          refine ⟨hp, hds, ?_⟩
          rw [hds, hst]
          simpa using hok
        · intro h
          simp [writes] at h
    · refine ⟨s, [], ?_, ?_, fun _ => rfl⟩
      · simp [fromXLX1, hn, hst, hok]
      · intro p e h
        simp [writes] at h
  · refine ⟨s, [], ?_, ?_, fun _ => rfl⟩
    · simp [fromXLX1, hn]
    · intro p e h
      simp [writes] at h

theorem fromXLX2_modem (g : CDMRGateway) (hb : Built g) (s : RunState) (f : CDMRData)
    (hx : g.m_xlxNetwork2 = true → g.m_xlx2Slot = 1 ∨ g.m_xlx2Slot = 2) :
    ∃ s2 ev, fromXLX2 g s (some f) = some (s2, ev) ∧
      (∀ p e, (p, e) ∈ writes ev → p = Peer.Modem ∧ e.slotNo = g.m_xlx2Slot ∧
        (s.status e.slotNo = some DMRGW_STATUS.DMRGWS_NONE ∨
          s.status e.slotNo = some DMRGW_STATUS.DMRGWS_XLXREFLECTOR2)) ∧
      (writes ev = [] → s2 = s) := by
  rcases hb.xlx2 with ⟨hn, hr, -⟩ | ⟨hn, -⟩
  · obtain ⟨st, hst⟩ := status_some s g.m_xlx2Slot (hx hn)
    obtain ⟨s2, hc, -⟩ := claim_some s g.m_xlx2Slot DMRGW_STATUS.DMRGWS_XLXREFLECTOR2 (hx hn)
    by_cases hok : st = DMRGW_STATUS.DMRGWS_NONE ∨ st = DMRGW_STATUS.DMRGWS_XLXREFLECTOR2
    · cases hm : CRewriteTG XLX_SLOT XLX_TG g.m_xlx2Slot g.m_xlx2TG 1 f with
      | none =>
        refine ⟨s, [Event.logUnexpected 2 f.slotNo f.flco f.dstId], ?_, ?_, fun _ => rfl⟩
        · simp [fromXLX2, hn, hst, hok, hr, hm]
        · intro p e h
          simp [writes] at h
      | some d =>
        have hds := rewriteTG_slot _ _ _ _ _ f d hm
        refine ⟨s2, [Event.write Peer.Modem d], ?_, ?_, ?_⟩
        · simp [fromXLX2, hn, hst, hok, hr, hm, hc]
        · intro p e h
          obtain ⟨hp, he⟩ := mem_writes_singleton p _ e _ h
          subst he
          refine ⟨hp, hds, ?_⟩
          rw [hds, hst]
          simpa using hok
        · intro h
          simp [writes] at h
    · refine ⟨s, [], ?_, ?_, fun _ => rfl⟩
      · simp [fromXLX2, hn, hst, hok]
      · intro p e h
        simp [writes] at h
  · refine ⟨s, [], ?_, ?_, fun _ => rfl⟩
    · simp [fromXLX2, hn]
    · intro p e h
      simp [writes] at h

theorem fromDMR1_modem (g : CDMRGateway) (s : RunState) (f : CDMRData)
    (hd : ∀ d, (processChain g.m_dmr1NetRewrites f).1 = some d → d.slotNo = 1 ∨ d.slotNo = 2) :
    ∃ s2 ev, fromDMR1 g s (some f) = some (s2, ev) ∧
      (∀ p e, (p, e) ∈ writes ev → p = Peer.Modem ∧
        (s.status e.slotNo = some DMRGW_STATUS.DMRGWS_NONE ∨
          s.status e.slotNo = some DMRGW_STATUS.DMRGWS_DMRNETWORK1)) ∧
      (writes ev = [] → s2 = s) := by
  have hnil : ∀ p e, (p, e) ∈ writes [] → p = Peer.Modem ∧
      (s.status e.slotNo = some DMRGW_STATUS.DMRGWS_NONE ∨
        s.status e.slotNo = some DMRGW_STATUS.DMRGWS_DMRNETWORK1) := by
    intro p e h
    simp [writes] at h
  cases hn : g.m_dmrNetwork1 with
  | false => exact ⟨s, [], by simp [fromDMR1, hn], hnil, fun _ => rfl⟩
  | true =>
    cases hm : (processChain g.m_dmr1NetRewrites f).1 with
    | none => exact ⟨s, [], by simp [fromDMR1, hn, hm], hnil, fun _ => rfl⟩
    | some d =>
      obtain ⟨s2, ev, hr, hw, hu⟩ :=
        guardedWrite_modem s d DMRGW_STATUS.DMRGWS_DMRNETWORK1 (hd d hm)
      refine ⟨s2, ev, by simp [fromDMR1, hn, hm, hr], ?_, hu⟩
      intro p e h
      exact ⟨(hw p e h).1, (hw p e h).2.2⟩

theorem fromDMR2_modem (g : CDMRGateway) (s : RunState) (f : CDMRData)
    (hd : ∀ d, (processChain g.m_dmr2NetRewrites f).1 = some d → d.slotNo = 1 ∨ d.slotNo = 2) :
    ∃ s2 ev, fromDMR2 g s (some f) = some (s2, ev) ∧
      (∀ p e, (p, e) ∈ writes ev → p = Peer.Modem ∧
        (s.status e.slotNo = some DMRGW_STATUS.DMRGWS_NONE ∨
          s.status e.slotNo = some DMRGW_STATUS.DMRGWS_DMRNETWORK2)) ∧
      (writes ev = [] → s2 = s) := by
  have hnil : ∀ p e, (p, e) ∈ writes [] → p = Peer.Modem ∧
      (s.status e.slotNo = some DMRGW_STATUS.DMRGWS_NONE ∨
        s.status e.slotNo = some DMRGW_STATUS.DMRGWS_DMRNETWORK2) := by
    intro p e h
    simp [writes] at h
  cases hn : g.m_dmrNetwork2 with
  | false => exact ⟨s, [], by simp [fromDMR2, hn], hnil, fun _ => rfl⟩
  | true =>
    cases hm : (processChain g.m_dmr2NetRewrites f).1 with
    | none => exact ⟨s, [], by simp [fromDMR2, hn, hm], hnil, fun _ => rfl⟩
    | some d =>
      obtain ⟨s2, ev, hr, hw, hu⟩ :=
        guardedWrite_modem s d DMRGW_STATUS.DMRGWS_DMRNETWORK2 (hd d hm)
      refine ⟨s2, ev, by simp [fromDMR2, hn, hm, hr], ?_, hu⟩
      intro p e h
      exact ⟨(hw p e h).1, (hw p e h).2.2⟩

theorem processChain_none (chain : List IRewrite) (f : CDMRData) :
    (processChain chain f).1 = none ↔ ∀ q ∈ chain, q f = none := by
  induction chain with
  | nil => simp [processChain]
  | cons r rs ih =>
    cases h : r f with
    | none => simp [processChain, h, ih]
    | some d => simp [processChain, h]

theorem processChain_none_calls (chain : List IRewrite) (f : CDMRData)
    (h : ∀ q ∈ chain, q f = none) : processChain chain f = (none, chain.length) := by
  induction chain with
  | nil => rfl
  | cons r rs ih =>
    have hr : r f = none := h r (List.mem_cons_self r rs)
    have hrs := ih (fun q hq => h q (List.mem_cons_of_mem r hq))
    simp [processChain, hr, hrs]

theorem processChain_some (chain : List IRewrite) (f d : CDMRData) (n : Nat) :
    processChain chain f = (some d, n) ↔
      ∃ pre r post, chain = pre ++ r :: post ∧ (∀ q ∈ pre, q f = none) ∧ r f = some d ∧
        n = pre.length + 1 := by
  induction chain generalizing n with
  | nil => simp [processChain]
  | cons r rs ih =>
    cases h : r f with
    | some e =>
      constructor
      · intro hp
        simp only [processChain, h, Prod.mk.injEq, Option.some.injEq] at hp
        refine ⟨[], r, rs, rfl, ?_, ?_, ?_⟩
        · intro q hq
          cases hq
        · rw [h, hp.1]
        · rw [← hp.2]
          rfl
      · rintro ⟨pre, r2, post, hc, hpre, hr2, hn⟩
        cases pre with
        | nil =>
          simp only [List.nil_append, List.cons.injEq] at hc
          rw [← hc.1, h] at hr2
          simp only [Option.some.injEq] at hr2
          simp [processChain, h, hr2, hn]
        | cons p pre =>
          simp only [List.cons_append, List.cons.injEq] at hc
          have := hpre p (List.mem_cons_self p pre)
          rw [← hc.1, h] at this
          cases this
    | none =>
      constructor
      · intro hp
        simp only [processChain, h, Prod.mk.injEq] at hp
        obtain ⟨pre, r2, post, hc, hpre, hr2, hn⟩ :=
          (ih ((processChain rs f).2)).mp (Prod.ext hp.1 rfl)
        refine ⟨r :: pre, r2, post, by simp [hc], ?_, hr2, ?_⟩
        · intro q hq
          rcases List.mem_cons.mp hq with hq | hq
          · rw [hq, h]
          · exact hpre q hq
        · rw [← hp.2, hn]
          rfl
      · rintro ⟨pre, r2, post, hc, hpre, hr2, hn⟩
        cases pre with
        | nil =>
          simp only [List.nil_append, List.cons.injEq] at hc
          rw [← hc.1, h] at hr2
          cases hr2
        | cons p pre =>
          simp only [List.cons_append, List.cons.injEq] at hc
          have hrs : processChain rs f = (some d, pre.length + 1) :=
            (ih (pre.length + 1)).mpr ⟨pre, r2, post, hc.2,
              fun q hq => hpre q (List.mem_cons_of_mem p hq), hr2, rfl⟩
          simp [processChain, h, hrs, hn]

/-- C10: a chain search returns the frame `d` after `n` calls of `process` exactly when
the chain splits as `pre ++ r :: post` where no rule of `pre` matches, `r`
matches with `r f = d` and `n = pre.length + 1`, so that no rule of `post` is
called; with a chain `[r1, r2]` whose rules both match the result is `r1 f`;
in each of the four searches (DMR-1 and DMR-2, RF and Net) the frame found is
the one handed to the ownership check; and when no rule of a chain matches,
that path writes nothing and changes no owner or timer. -/
theorem first_match_wins (g : CDMRGateway) (s : RunState) (f : CDMRData) :
    (∀ chain d n, processChain chain f = (some d, n) ↔
      ∃ pre r post, chain = pre ++ r :: post ∧ (∀ q ∈ pre, q f = none) ∧ r f = some d ∧
        n = pre.length + 1) ∧
    (∀ (r1 r2 : IRewrite) d1 d2, r1 f = some d1 → r2 f = some d2 →
      processChain [r1, r2] f = (some d1, 1)) ∧
    (∀ d, g.m_dmrNetwork1 = true → branch g f = Branch.dmr →
      (processChain g.m_dmr1RFRewrites f).1 = some d →
      fromModem g s f = guardedWrite s d DMRGW_STATUS.DMRGWS_DMRNETWORK1 Peer.DMR1) ∧
    (∀ d, g.m_dmrNetwork2 = true → branch g f = Branch.dmr →
      (g.m_dmrNetwork1 = false ∨ (processChain g.m_dmr1RFRewrites f).1 = none) →
      (processChain g.m_dmr2RFRewrites f).1 = some d →
      fromModem g s f = guardedWrite s d DMRGW_STATUS.DMRGWS_DMRNETWORK2 Peer.DMR2) ∧
    (∀ d, g.m_dmrNetwork1 = true → (processChain g.m_dmr1NetRewrites f).1 = some d →
      fromDMR1 g s (some f) = guardedWrite s d DMRGW_STATUS.DMRGWS_DMRNETWORK1 Peer.Modem) ∧
    (∀ d, g.m_dmrNetwork2 = true → (processChain g.m_dmr2NetRewrites f).1 = some d →
      fromDMR2 g s (some f) = guardedWrite s d DMRGW_STATUS.DMRGWS_DMRNETWORK2 Peer.Modem) ∧
    (branch g f = Branch.dmr → (∀ q ∈ g.m_dmr1RFRewrites, q f = none) →
      fromModem g s f = modemToDMR2 g s f) ∧
    ((∀ q ∈ g.m_dmr2RFRewrites, q f = none) → modemToDMR2 g s f = some (s, [])) ∧
    ((∀ q ∈ g.m_dmr1NetRewrites, q f = none) → fromDMR1 g s (some f) = some (s, [])) ∧
    ((∀ q ∈ g.m_dmr2NetRewrites, q f = none) → fromDMR2 g s (some f) = some (s, [])) := by
  refine ⟨fun chain d n => processChain_some chain f d n, ?_, ?_, ?_, ?_, ?_, ?_, ?_, ?_, ?_⟩
  · intro r1 r2 d1 d2 h1 _
    simp [processChain, h1]
  · intro d hn hb hm
    simp [fromModem, hb, modemToDMR, hn, hm]
  · intro d hn hb h1 hm
    rcases h1 with h1 | h1 <;> simp [fromModem, hb, modemToDMR, modemToDMR2, hn, hm, h1]
  · intro d hn hm
    simp [fromDMR1, hn, hm]
  · intro d hn hm
    simp [fromDMR2, hn, hm]
  · intro hb hq
    have := (processChain_none _ f).mpr hq
    cases hn : g.m_dmrNetwork1 <;> simp [fromModem, hb, modemToDMR, hn, this]
  · intro hq
    have := (processChain_none _ f).mpr hq
    cases hn : g.m_dmrNetwork2 <;> simp [modemToDMR2, hn, this]
  · intro hq
    have := (processChain_none _ f).mpr hq
    cases hn : g.m_dmrNetwork1 <;> simp [fromDMR1, hn, this]
  · intro hq
    have := (processChain_none _ f).mpr hq
    cases hn : g.m_dmrNetwork2 <;> simp [fromDMR2, hn, this]

/-- Scenario 4 for C10: both TG rules of DMR-1 match the group frame on slot 1, TG 8;
the search stops after one call with the output of the first, slot 2, TG 81. -/
theorem first_match_wins_witness :
    (setup dmrConf).m_dmr1RFRewrites = [CRewriteTG 1 8 2 81 1, CRewriteTG 1 8 2 82 1] ∧
    processChain [CRewriteTG 1 8 2 81 1, CRewriteTG 1 8 2 82 1] (frame FLCO.FLCO_GROUP 1 8 0) =
      (some (frame FLCO.FLCO_GROUP 2 81 0), 1) ∧
    fromModem (setup dmrConf) (initial dmrConf) (frame FLCO.FLCO_GROUP 1 8 0) =
      guardedWrite (initial dmrConf) (frame FLCO.FLCO_GROUP 2 81 0)
        DMRGW_STATUS.DMRGWS_DMRNETWORK1 Peer.DMR1 := by
  have h := first_match_wins (setup dmrConf) (initial dmrConf) (frame FLCO.FLCO_GROUP 1 8 0)
  refine ⟨rfl, ?_, ?_⟩
  · exact h.2.1 (CRewriteTG 1 8 2 81 1) (CRewriteTG 1 8 2 82 1) (frame FLCO.FLCO_GROUP 2 81 0)
      (frame FLCO.FLCO_GROUP 2 82 0) (by decide) (by decide)
  · exact h.2.2.1 (frame FLCO.FLCO_GROUP 2 81 0) (by decide) (by decide) (by decide)

/-! ## C9 -/

theorem timed_claim (T : Nat) (s s2 : RunState) (i : Nat) (tag : DMRGW_STATUS)
    (h : s.claim i tag = some s2) (ht : Timed T s) : Timed T s2 := by
  unfold RunState.claim at h
  obtain ⟨h1, h2, h3, h4⟩ := ht
  split_ifs at h <;> simp only [Option.some.injEq] at h <;> subst h <;>
    simp [Timed, CTimer.start, h1, h2] <;> assumption

theorem timed_xlx1Detect (T : Nat) (g : CDMRGateway) (s : RunState) (f : CDMRData) :
    Timed T (xlx1Detect g s f).1 ↔ Timed T s := by
  unfold xlx1Detect
  simp only []
  split_ifs <;> simp [Timed]

theorem timed_xlx2Detect (T : Nat) (g : CDMRGateway) (s : RunState) (f : CDMRData) :
    Timed T (xlx2Detect g s f).1 ↔ Timed T s := by
  unfold xlx2Detect
  simp only []
  split_ifs <;> simp [Timed]

theorem timed_xlx1Announce (T : Nat) (g : CDMRGateway) (s : RunState) (f : CDMRData) :
    Timed T (xlx1Announce g s f).1 ↔ Timed T s := by
  unfold xlx1Announce
  split_ifs <;> simp [Timed]

theorem timed_xlx2Announce (T : Nat) (g : CDMRGateway) (s : RunState) (f : CDMRData) :
    Timed T (xlx2Announce g s f).1 ↔ Timed T s := by
  unfold xlx2Announce
  split_ifs <;> simp [Timed]

theorem timed_guardedWrite (T : Nat) (s s2 : RunState) (d : CDMRData) (tag : DMRGW_STATUS)
    (dest : Peer) (ev : List Event) (h : guardedWrite s d tag dest = some (s2, ev))
    (ht : Timed T s) : Timed T s2 := by
  unfold guardedWrite at h
  split at h
  · cases h
  · split_ifs at h
    · split at h
      · cases h
      · rename_i s3 hc
        simp only [Option.some.injEq, Prod.mk.injEq] at h
        rw [← h.1]
        exact timed_claim T s s3 _ _ hc ht
    · simp only [Option.some.injEq, Prod.mk.injEq] at h
      rw [← h.1]
      exact ht

theorem timed_fromModem (T : Nat) (g : CDMRGateway) (s s2 : RunState) (f : CDMRData)
    (ev : List Event) (h : fromModem g s f = some (s2, ev)) (ht : Timed T s) : Timed T s2 := by
  unfold fromModem at h
  split at h
  · unfold xlx1Voice at h
    simp only [] at h
    split at h
    · cases h
    · split_ifs at h
      split at h
      · cases h
      · rename_i s3 hc
        simp only [Option.some.injEq, Prod.mk.injEq] at h
        rw [← h.1]
        exact timed_claim T s s3 _ _ hc ht
  · unfold xlx2Voice at h
    simp only [] at h
    split at h
    · cases h
    · split_ifs at h
      split at h
      · cases h
      · rename_i s3 hc
        simp only [Option.some.injEq, Prod.mk.injEq] at h
        rw [← h.1]
        exact timed_claim T s s3 _ _ hc ht
  · unfold xlx1Link at h
    simp only [] at h
    split_ifs at h
    split at h
    · cases h
    · rename_i s3 hc
      simp only [Option.some.injEq, Prod.mk.injEq] at h
      rw [← h.1, timed_xlx1Announce]
      exact timed_claim T _ s3 _ _ hc ((timed_xlx1Detect T g s f).mpr ht)
  · unfold xlx2Link at h
    simp only [] at h
    split_ifs at h
    split at h
    · cases h
    · rename_i s3 hc
      simp only [Option.some.injEq, Prod.mk.injEq] at h
      rw [← h.1, timed_xlx2Announce]
      exact timed_claim T _ s3 _ _ hc ((timed_xlx2Detect T g s f).mpr ht)
  · have h2 : ∀ r, modemToDMR2 g s f = some r → Timed T r.1 := by
      intro r hr
      unfold modemToDMR2 at hr
      split_ifs at hr
      · split at hr
        · exact timed_guardedWrite T s r.1 _ _ _ r.2 hr ht
        · simp only [Option.some.injEq] at hr
          rw [← hr]
          exact ht
      · simp only [Option.some.injEq] at hr
        rw [← hr]
        exact ht
    unfold modemToDMR at h
    split_ifs at h
    · split at h
      · exact timed_guardedWrite T s s2 _ _ _ ev h ht
      · exact h2 _ h
    · exact h2 _ h

theorem timed_fromXLX1 (T : Nat) (g : CDMRGateway) (s s2 : RunState) (inp : Option CDMRData)
    (ev : List Event) (h : fromXLX1 g s inp = some (s2, ev)) (ht : Timed T s) : Timed T s2 := by
  unfold fromXLX1 at h
  repeat' split at h
  all_goals first
    | (cases h; done)
    | (cases h; exact ht)
    | (cases h; exact timed_claim T s _ _ _ (by assumption) ht)

theorem timed_fromXLX2 (T : Nat) (g : CDMRGateway) (s s2 : RunState) (inp : Option CDMRData)
    (ev : List Event) (h : fromXLX2 g s inp = some (s2, ev)) (ht : Timed T s) : Timed T s2 := by
  unfold fromXLX2 at h
  repeat' split at h
  all_goals first
    | (cases h; done)
    | (cases h; exact ht)
    | (cases h; exact timed_claim T s _ _ _ (by assumption) ht)

theorem timed_fromDMR1 (T : Nat) (g : CDMRGateway) (s s2 : RunState) (inp : Option CDMRData)
    (ev : List Event) (h : fromDMR1 g s inp = some (s2, ev)) (ht : Timed T s) : Timed T s2 := by
  unfold fromDMR1 at h
  repeat' split at h
  all_goals first
    | exact timed_guardedWrite T s s2 _ _ _ ev h ht
    | (cases h; exact ht)

theorem timed_fromDMR2 (T : Nat) (g : CDMRGateway) (s s2 : RunState) (inp : Option CDMRData)
    (ev : List Event) (h : fromDMR2 g s inp = some (s2, ev)) (ht : Timed T s) : Timed T s2 := by
  unfold fromDMR2 at h
  repeat' split at h
  all_goals first
    | exact timed_guardedWrite T s s2 _ _ _ ev h ht
    | (cases h; exact ht)

theorem timed_fromVoice1 (T : Nat) (g : CDMRGateway) (s s2 : RunState) (inp : Option CDMRData)
    (ev : List Event) (h : fromVoice1 g s inp = some (s2, ev)) (ht : Timed T s) :
    Timed T s2 := by
  unfold fromVoice1 at h
  repeat' split at h
  all_goals first
    | (cases h; done)
    | (cases h; exact ht)
    | (cases h; exact timed_claim T s _ _ _ (by assumption) ht)

theorem timed_fromVoice2 (T : Nat) (g : CDMRGateway) (s s2 : RunState) (inp : Option CDMRData)
    (ev : List Event) (h : fromVoice2 g s inp = some (s2, ev)) (ht : Timed T s) :
    Timed T s2 := by
  unfold fromVoice2 at h
  repeat' split at h
  all_goals first
    | (cases h; done)
    | (cases h; exact ht)
    | (cases h; exact timed_claim T s _ _ _ (by assumption) ht)

theorem andThen_some (r : Result) (k : RunState → Result) (s2 : RunState) (ev : List Event)
    (h : r.andThen k = some (s2, ev)) :
    ∃ s1 ev1 ev2, r = some (s1, ev1) ∧ k s1 = some (s2, ev2) ∧ ev = ev1 ++ ev2 := by
  unfold Result.andThen at h
  split at h
  · cases h
  · rename_i s1 ev1
    split at h
    · cases h
    · rename_i s3 ev3 hk
      simp only [Option.some.injEq, Prod.mk.injEq] at h
      exact ⟨s1, ev1, ev3, rfl, by rw [hk, h.1], h.2.symm⟩

theorem timed_dispatch (T : Nat) (g : CDMRGateway) (s s2 : RunState) (i : TickInput)
    (ev : List Event) (h : dispatch g s i = some (s2, ev)) (ht : Timed T s) : Timed T s2 := by
  unfold dispatch at h
  obtain ⟨a7, _, _, h, h8, -⟩ := andThen_some _ _ _ _ h
  obtain ⟨a6, _, _, h, h7, -⟩ := andThen_some _ _ _ _ h
  obtain ⟨a5, _, _, h, h6, -⟩ := andThen_some _ _ _ _ h
  obtain ⟨a4, _, _, h, h5, -⟩ := andThen_some _ _ _ _ h
  obtain ⟨a3, _, _, h, h4, -⟩ := andThen_some _ _ _ _ h
  obtain ⟨a2, _, _, h, h3, -⟩ := andThen_some _ _ _ _ h
  obtain ⟨a1, _, _, h, h2, -⟩ := andThen_some _ _ _ _ h
  have t1 : Timed T a1 := by
    unfold step1 at h
    split at h
    · simp only [Option.some.injEq, Prod.mk.injEq] at h
      rw [← h.1]
      exact ht
    · exact timed_fromModem T g s a1 _ _ h ht
  have t2 := timed_fromXLX1 T g a1 a2 _ _ h2 t1
  have t3 := timed_fromXLX2 T g a2 a3 _ _ h3 t2
  have t4 := timed_fromDMR1 T g a3 a4 _ _ h4 t3
  have t5 := timed_fromDMR2 T g a4 a5 _ _ h5 t4
  simp only [Option.some.injEq, Prod.mk.injEq] at h6
  rw [h6.1] at t5
  have t7 := timed_fromVoice1 T g a6 a7 _ _ h7 t5
  exact timed_fromVoice2 T g a7 s2 _ _ h8 t7

theorem clockTimers_slot (s : RunState) (ms i : Nat) (hi : i = 1 ∨ i = 2) :
    ∃ t st, s.timer i = some t ∧ s.status i = some st ∧
      (clockTimers s ms).timer i =
        some (if t.running = true ∧ t.timeout ≤ t.elapsed + ms then
          { timeout := t.timeout, running := false, elapsed := 0 } else t.clock ms) ∧
      (clockTimers s ms).status i =
        some (if t.running = true ∧ t.timeout ≤ t.elapsed + ms then
          DMRGW_STATUS.DMRGWS_NONE else st) := by
  rcases hi with rfl | rfl
  · refine ⟨s.timer1, s.status1, rfl, rfl, ?_, ?_⟩ <;>
      cases hr : s.timer1.running <;>
      by_cases hle : s.timer1.timeout ≤ s.timer1.elapsed + ms <;>
      simp [clockTimers, CTimer.clock, CTimer.isRunning, CTimer.hasExpired, CTimer.stop,
        RunState.timer, RunState.status, hr, hle] <;>
      split_ifs <;> simp_all
  · refine ⟨s.timer2, s.status2, rfl, rfl, ?_, ?_⟩ <;>
      cases hr : s.timer2.running <;>
      by_cases hle : s.timer2.timeout ≤ s.timer2.elapsed + ms <;>
      simp [clockTimers, CTimer.clock, CTimer.isRunning, CTimer.hasExpired, CTimer.stop,
        RunState.timer, RunState.status, hr, hle] <;>
      split_ifs <;> simp_all

theorem timed_clockTimers (T : Nat) (s : RunState) (ms : Nat) (ht : Timed T s) :
    Timed T (clockTimers s ms) := by
  obtain ⟨h1, h2, h3, h4⟩ := ht
  obtain ⟨t1, st1, ht1, hs1, hct1, hcs1⟩ := clockTimers_slot s ms 1 (Or.inl rfl)
  obtain ⟨t2, st2, ht2, hs2, hct2, hcs2⟩ := clockTimers_slot s ms 2 (Or.inr rfl)
  simp only [RunState.timer, RunState.status, if_true, Option.some.injEq] at ht1 hs1 hct1 hcs1
  simp only [RunState.timer, RunState.status, if_true, Option.some.injEq,
    show (2 : Nat) ≠ 1 by decide, if_false] at ht2 hs2 hct2 hcs2
  subst ht1 hs1 ht2 hs2
  refine ⟨?_, ?_, ?_, ?_⟩
  · rw [hct1]
    split_ifs
    · exact h1
    · simp only [CTimer.clock]
      split_ifs <;> exact h1
  · rw [hct2]
    split_ifs
    · exact h2
    · simp only [CTimer.clock]
      split_ifs <;> exact h2
  · rw [hct1, hcs1]
    split_ifs with h
    · intro hne
      exact absurd rfl hne
    · intro hne
      have hr := h3 hne
      simp [CTimer.clock, hr]
  · rw [hct2, hcs2]
    split_ifs with h
    · intro hne
      exact absurd rfl hne
    · intro hne
      have hr := h4 hne
      simp [CTimer.clock, hr]

theorem tick_some (g : CDMRGateway) (s s2 : RunState) (i : TickInput) (ev : List Event)
    (h : tick g s i = some (s2, ev)) :
    ∃ s1, dispatch g s i = some (s1, ev) ∧ s2 = clockTimers s1 i.ms := by
  unfold tick at h
  obtain ⟨s1, ev1, ev2, hd, hk, he⟩ := andThen_some _ _ _ _ h
  simp only [Option.some.injEq, Prod.mk.injEq] at hk
  refine ⟨s1, ?_, hk.1.symm⟩
  rw [hd, he, ← hk.2, List.append_nil]

theorem tick_of_dispatch (g : CDMRGateway) (s s1 : RunState) (i : TickInput) (ev : List Event)
    (h : dispatch g s i = some (s1, ev)) : tick g s i = some (clockTimers s1 i.ms, ev) := by
  simp [tick, h, Result.andThen]

theorem timed_tick (T : Nat) (g : CDMRGateway) (s s2 : RunState) (i : TickInput)
    (ev : List Event) (h : tick g s i = some (s2, ev)) (ht : Timed T s) : Timed T s2 := by
  obtain ⟨s1, hd, rfl⟩ := tick_some g s s2 i ev h
  exact timed_clockTimers T s1 i.ms (timed_dispatch T g s s1 i ev hd ht)

theorem timed_runTicks (T : Nat) (g : CDMRGateway) (is : List TickInput) :
    ∀ (s s2 : RunState) (ev : List Event), runTicks g s is = some (s2, ev) → Timed T s →
      Timed T s2 := by
  induction is with
  | nil =>
    intro s s2 ev h ht
    simp only [runTicks, Option.some.injEq, Prod.mk.injEq] at h
    rw [← h.1]
    exact ht
  | cons i is ih =>
    intro s s2 ev h ht
    simp only [runTicks] at h
    obtain ⟨s1, ev1, ev2, h1, h2, -⟩ := andThen_some _ _ _ _ h
    exact ih s1 s2 ev2 h2 (timed_tick T g s s1 i ev1 h1 ht)

theorem timed_initial (c : CConf) : Timed c.Timeout (initial c) := by
  simp [Timed, initial, CTimer.create]

theorem timed_slot (T : Nat) (s : RunState) (i : Nat) (hi : i = 1 ∨ i = 2) (ht : Timed T s) :
    ∃ t, s.timer i = some t ∧ t.timeout = T * 1000 ∧
      (s.status i = some DMRGW_STATUS.DMRGWS_NONE ∨ t.running = true) := by
  obtain ⟨h1, h2, h3, h4⟩ := ht
  rcases hi with rfl | rfl
  · refine ⟨s.timer1, rfl, h1, ?_⟩
    by_cases h : s.status1 = DMRGW_STATUS.DMRGWS_NONE
    · left
      simp [RunState.status, h]
    · exact Or.inr (h3 h)
  · refine ⟨s.timer2, rfl, h2, ?_⟩
    by_cases h : s.status2 = DMRGW_STATUS.DMRGWS_NONE
    · left
      simp [RunState.status, h]
    · exact Or.inr (h4 h)

theorem quiet_release (g : CDMRGateway) (slot : Nat) (hslot : slot = 1 ∨ slot = 2) :
    ∀ (is : List TickInput) (s : RunState) (t : CTimer), s.timer slot = some t →
      quietRun g slot s is →
      (s.status slot = some DMRGW_STATUS.DMRGWS_NONE ∨ t.running = true) →
      ∃ s2 ev t2, runTicks g s is = some (s2, ev) ∧ s2.timer slot = some t2 ∧
        t2.timeout = t.timeout ∧
        (s2.status slot = some DMRGW_STATUS.DMRGWS_NONE ∨
          (t.running = true ∧ t2.running = true ∧ t2.elapsed = t.elapsed + totalMs is ∧
            (is = [] ∨ t2.elapsed < t.timeout))) := by
  intro is
  induction is with
  | nil =>
    intro s t ht _ hp
    refine ⟨s, [], t, rfl, ht, rfl, ?_⟩
    rcases hp with hp | hp
    · exact Or.inl hp
    · exact Or.inr ⟨hp, hp, by simp [totalMs], Or.inl rfl⟩
  | cons i is ih =>
    intro s t ht hq hp
    obtain ⟨s1, ev1, hd, hs1, ht1, hq1⟩ := hq
    obtain ⟨t', st, htt, hst, hct, hcs⟩ := clockTimers_slot s1 i.ms slot hslot
    rw [ht1, ht] at htt
    simp only [Option.some.injEq] at htt
    subst htt
    have htick := tick_of_dispatch g s s1 i ev1 hd
    by_cases hexp : t.running = true ∧ t.timeout ≤ t.elapsed + i.ms
    · rw [if_pos hexp] at hct hcs
      obtain ⟨s2, ev2, t2, hr, ht2, hto, hres⟩ := ih _ _ hct hq1 (Or.inl hcs)
      refine ⟨s2, ev1 ++ ev2, t2, ?_, ht2, hto, ?_⟩
      · simp [runTicks, htick, Result.andThen, hr]
      · rcases hres with hres | hres
        · exact Or.inl hres
        · exact absurd hres.1 (by simp)
    · rw [if_neg hexp] at hct hcs
      have hp' : (clockTimers s1 i.ms).status slot = some DMRGW_STATUS.DMRGWS_NONE ∨
          (t.clock i.ms).running = true := by
        rcases hp with hp | hp
        · left
          rw [hcs, ← hst, hs1, hp]
        · right
          simp [CTimer.clock, hp]
      obtain ⟨s2, ev2, t2, hr, ht2, hto, hres⟩ := ih _ _ hct hq1 hp'
      have hto' : (t.clock i.ms).timeout = t.timeout := by
        simp only [CTimer.clock]
        split_ifs <;> rfl
      refine ⟨s2, ev1 ++ ev2, t2, ?_, ht2, hto.trans hto', ?_⟩
      · simp [runTicks, htick, Result.andThen, hr]
      · rcases hres with hres | ⟨hrun, hrun2, hel, hlt⟩
        · exact Or.inl hres
        · right
          have hrt : t.running = true := by
            by_contra hne
            simp [CTimer.clock, hne] at hrun
          have hel' : (t.clock i.ms).elapsed = t.elapsed + i.ms := by
            simp [CTimer.clock, hrt]
          have hnot : ¬ t.timeout ≤ t.elapsed + i.ms := fun hle => hexp ⟨hrt, hle⟩
          refine ⟨hrt, hrun2, ?_, Or.inr ?_⟩
          · rw [hel, hel']
            simp only [totalMs]
            omega
          · rcases hlt with hlt | hlt
            · subst hlt
              rw [hel, hel']
              simp only [totalMs]
              omega
            · rw [hto'] at hlt
              exact hlt

/-- C9: in every state `s` the loop can reach with a timeout of T > 0 seconds, and for
each slot: (1) whatever a pass delivers, at its end the timer of the slot is
not both running and expired; if the running timer reached T seconds in the
clock step the slot has no owner and the timer is stopped, and otherwise the
slot keeps the owner it had before the clock step; (2) after any run of passes
in which no frame claims the slot and whose elapsed times sum to at least
T seconds, the slot has no owner, and a frame then offered for that slot with
any tag passes the ownership check, is written and claims the slot (likewise
a frame from XLX-k matching its inbound rule). -/
theorem timeout_release (c : CConf) (hT : 0 < c.Timeout) (pre : List TickInput)
    (s : RunState) (ev0 : List Event)
    (hreach : runTicks (setup c) (initial c) pre = some (s, ev0))
    (slot : Nat) (hslot : slot = 1 ∨ slot = 2) :
    (∀ i s1 ev, dispatch (setup c) s i = some (s1, ev) →
      ∃ t1 t2, s1.timer slot = some t1 ∧
        tick (setup c) s i = some (clockTimers s1 i.ms, ev) ∧
        (clockTimers s1 i.ms).timer slot = some t2 ∧
        ¬ (t2.isRunning = true ∧ t2.hasExpired = true) ∧
        (t1.running = true ∧ c.Timeout * 1000 ≤ t1.elapsed + i.ms →
          (clockTimers s1 i.ms).status slot = some DMRGW_STATUS.DMRGWS_NONE ∧
          t2.isRunning = false) ∧
        (¬ (t1.running = true ∧ c.Timeout * 1000 ≤ t1.elapsed + i.ms) →
          (clockTimers s1 i.ms).status slot = s1.status slot)) ∧
    (∀ is, quietRun (setup c) slot s is → c.Timeout * 1000 ≤ totalMs is →
      ∃ s2 ev, runTicks (setup c) s is = some (s2, ev) ∧
        s2.status slot = some DMRGW_STATUS.DMRGWS_NONE ∧
        (∀ d tag dest, d.slotNo = slot →
          ∃ s3, guardedWrite s2 d tag dest = some (s3, [Event.write dest d]) ∧
            s3.status slot = some tag) ∧
        (∀ f d, (setup c).m_xlxNetwork1 = true → (setup c).m_xlx1Slot = slot →
          CRewriteTG XLX_SLOT XLX_TG slot (setup c).m_xlx1TG 1 f = some d →
          ∃ s3, fromXLX1 (setup c) s2 (some f) = some (s3, [Event.write Peer.Modem d]) ∧
            s3.status slot = some DMRGW_STATUS.DMRGWS_XLXREFLECTOR1) ∧
        (∀ f d, (setup c).m_xlxNetwork2 = true → (setup c).m_xlx2Slot = slot →
          CRewriteTG XLX_SLOT XLX_TG slot (setup c).m_xlx2TG 1 f = some d →
          ∃ s3, fromXLX2 (setup c) s2 (some f) = some (s3, [Event.write Peer.Modem d]) ∧
            s3.status slot = some DMRGW_STATUS.DMRGWS_XLXREFLECTOR2)) := by
  have hb := built_setup c
  have hts : Timed c.Timeout s :=
    timed_runTicks c.Timeout (setup c) pre (initial c) s ev0 hreach (timed_initial c)
  generalize setup c = g at hb ⊢
  constructor
  · intro i s1 ev hd
    have ht1 := timed_dispatch c.Timeout g s s1 i ev hd hts
    obtain ⟨t1, htm, hto, -⟩ := timed_slot c.Timeout s1 slot hslot ht1
    obtain ⟨t1', st, htm', hst, hct, hcs⟩ := clockTimers_slot s1 i.ms slot hslot
    rw [htm] at htm'
    simp only [Option.some.injEq] at htm'
    subst htm'
    rw [hto] at hct hcs
    by_cases hexp : t1.running = true ∧ c.Timeout * 1000 ≤ t1.elapsed + i.ms
    · rw [if_pos hexp] at hct hcs
      refine ⟨t1, _, htm, tick_of_dispatch g s s1 i ev hd, hct, ?_, ?_, ?_⟩
      · simp [CTimer.isRunning]
      · intro _
        exact ⟨hcs, rfl⟩
      · intro hn
        exact absurd hexp hn
    · rw [if_neg hexp] at hct hcs
      refine ⟨t1, _, htm, tick_of_dispatch g s s1 i ev hd, hct, ?_, ?_, ?_⟩
      · rintro ⟨hr, he⟩
        apply hexp
        cases hrun : t1.running
        · simp [CTimer.isRunning, CTimer.clock, hrun] at hr
        · simp [CTimer.hasExpired, CTimer.clock, hrun, hto] at he
          exact ⟨rfl, he⟩
      · intro h
        exact absurd h hexp
      · intro _
        rw [hcs, hst]
  · intro is hq hsum
    obtain ⟨t, htm, hto, hp⟩ := timed_slot c.Timeout s slot hslot hts
    obtain ⟨s2, ev, t2, hr, ht2, hto2, hres⟩ := quiet_release g slot hslot is s t htm hq hp
    have hnone : s2.status slot = some DMRGW_STATUS.DMRGWS_NONE := by
      rcases hres with hres | ⟨-, -, hel, hlt⟩
      · exact hres
      · exfalso
        rcases hlt with hlt | hlt
        · subst hlt
          simp only [totalMs] at hsum
          omega
        · omega
    obtain ⟨s3, hc, h1, -⟩ := claim_some s2 slot DMRGW_STATUS.DMRGWS_XLXREFLECTOR1 hslot
    obtain ⟨s4, hc2, h2, -⟩ := claim_some s2 slot DMRGW_STATUS.DMRGWS_XLXREFLECTOR2 hslot
    refine ⟨s2, ev, hr, hnone, ?_, ?_, ?_⟩
    · intro d tag dest hd
      have hds : d.slotNo = 1 ∨ d.slotNo = 2 := by rw [hd]; exact hslot
      obtain ⟨s5, hw, hst, -⟩ :=
        (guardedWrite_contract s2 d tag dest hds).1 (Or.inl (by rw [hd]; exact hnone))
      exact ⟨s5, hw, by rw [← hd]; exact hst⟩
    · intro f d hn hsl hm
      rcases hb.xlx1 with ⟨-, hrp, -⟩ | ⟨hn', -⟩
      · refine ⟨s3, ?_, h1⟩
        rw [← hsl] at hm hnone hc
        simp [fromXLX1, hn, hnone, hrp, hm, hc]
      · rw [hn] at hn'
        cases hn'
    · intro f d hn hsl hm
      rcases hb.xlx2 with ⟨-, hrp, -⟩ | ⟨hn', -⟩
      · refine ⟨s4, ?_, h2⟩
        rw [← hsl] at hm hnone hc2
        simp [fromXLX2, hn, hnone, hrp, hm, hc2]
      · rw [hn] at hn'
        cases hn'

/-- Scenario 6 for C9: after scenario 4 slot 2 is held by DMR-1; one pass with no
traffic that lasts 11 s releases it, and a frame rewritten for DMR-2 on slot 2
is then written to DMR-2 and claims the slot. -/
theorem timeout_release_witness :
    ∃ s2 ev, runTicks (setup dmrConf) afterScenario4 [{ idle with ms := 11000 }] =
        some (s2, ev) ∧
      s2.status 2 = some DMRGW_STATUS.DMRGWS_NONE ∧
      ∃ s3, guardedWrite s2 (frame FLCO.FLCO_GROUP 2 9 0) DMRGW_STATUS.DMRGWS_DMRNETWORK2
          Peer.DMR2 = some (s3, [Event.write Peer.DMR2 (frame FLCO.FLCO_GROUP 2 9 0)]) ∧
        s3.status 2 = some DMRGW_STATUS.DMRGWS_DMRNETWORK2 := by
  obtain ⟨s2, ev, hr, hn, hw, -⟩ :=
    (timeout_release dmrConf (by decide) [{ idle with modem := some (frame FLCO.FLCO_GROUP 1 8 0) }]
      afterScenario4 [Event.write Peer.DMR1 (frame FLCO.FLCO_GROUP 2 81 0)] (by decide)
      2 (Or.inr rfl)).2 [{ idle with ms := 11000 }]
      ⟨afterScenario4, [], by decide, rfl, rfl, trivial⟩ (by decide)
  exact ⟨s2, ev, hr, hn, hw (frame FLCO.FLCO_GROUP 2 9 0) DMRGW_STATUS.DMRGWS_DMRNETWORK2
    Peer.DMR2 rfl⟩

/-! ## C11 -/

/-- C11 as stated fails: with slot 1 (XLX-1's slot) held by DmrNet1, a frame read from
XLX-1 is dropped and the state is unchanged, but the pass produces no event at
all, so no warning is logged for that frame. -/
theorem xlx_inbound_conflict_counterexample :
    (setup xlxConf).m_xlx1Slot = 1 ∧
    heldByDmr1.status 1 = some DMRGW_STATUS.DMRGWS_DMRNETWORK1 ∧
    fromXLX1 (setup xlxConf) heldByDmr1 (some (frame FLCO.FLCO_GROUP 2 9 0)) =
      some (heldByDmr1, []) ∧
    tick (setup xlxConf) heldByDmr1 { idle with xlx1 := some (frame FLCO.FLCO_GROUP 2 9 0) } =
      some (heldByDmr1, []) := by
  decide

/-- C11 as amended: for k in {1,2}, a frame read from XLX-k while the owner of
xlxkSlot is neither None nor XlxRefl-k is not written, changes no owner or
timer, and nothing is logged.  The warning is the one of lines 480 / 500: it
is logged for a frame read while the owner of xlxkSlot is None or XlxRefl-k
that the inbound rewrite does not match; that frame is not written either and
the state is unchanged. -/
theorem xlx_inbound_conflict_is_silent (c : CConf) (s : RunState) (f : CDMRData) :
    (((setup c).m_xlx1Slot = 1 ∨ (setup c).m_xlx1Slot = 2) →
      (s.status (setup c).m_xlx1Slot ≠ some DMRGW_STATUS.DMRGWS_NONE →
        s.status (setup c).m_xlx1Slot ≠ some DMRGW_STATUS.DMRGWS_XLXREFLECTOR1 →
        fromXLX1 (setup c) s (some f) = some (s, [])) ∧
      ((s.status (setup c).m_xlx1Slot = some DMRGW_STATUS.DMRGWS_NONE ∨
          s.status (setup c).m_xlx1Slot = some DMRGW_STATUS.DMRGWS_XLXREFLECTOR1) →
        CRewriteTG XLX_SLOT XLX_TG (setup c).m_xlx1Slot (setup c).m_xlx1TG 1 f = none →
        fromXLX1 (setup c) s (some f) =
          some (s, [Event.logUnexpected 1 f.slotNo f.flco f.dstId]))) ∧
    (((setup c).m_xlx2Slot = 1 ∨ (setup c).m_xlx2Slot = 2) →
      (s.status (setup c).m_xlx2Slot ≠ some DMRGW_STATUS.DMRGWS_NONE →
        s.status (setup c).m_xlx2Slot ≠ some DMRGW_STATUS.DMRGWS_XLXREFLECTOR2 →
        fromXLX2 (setup c) s (some f) = some (s, [])) ∧
      ((s.status (setup c).m_xlx2Slot = some DMRGW_STATUS.DMRGWS_NONE ∨
          s.status (setup c).m_xlx2Slot = some DMRGW_STATUS.DMRGWS_XLXREFLECTOR2) →
        CRewriteTG XLX_SLOT XLX_TG (setup c).m_xlx2Slot (setup c).m_xlx2TG 1 f = none →
        fromXLX2 (setup c) s (some f) =
          some (s, [Event.logUnexpected 2 f.slotNo f.flco f.dstId]))) := by
  have hb := built_setup c
  generalize setup c = g at hb ⊢
  constructor
  · intro hx1
    obtain ⟨st, hst⟩ := status_some s g.m_xlx1Slot hx1
    rcases hb.xlx1 with ⟨hn, hr, -⟩ | ⟨-, h0, -⟩
    · constructor
      · intro h1 h2
        have hno : ¬ (st = DMRGW_STATUS.DMRGWS_NONE ∨
            st = DMRGW_STATUS.DMRGWS_XLXREFLECTOR1) := by
          rw [hst] at h1 h2
          rintro (h | h)
          · exact h1 (by rw [h])
          · exact h2 (by rw [h])
        simp [fromXLX1, hn, hst, hno]
      · intro hok hm
        have hok' : st = DMRGW_STATUS.DMRGWS_NONE ∨
            st = DMRGW_STATUS.DMRGWS_XLXREFLECTOR1 := by
          rw [hst] at hok
          simpa using hok
        simp [fromXLX1, hn, hst, hok', hr, hm]
    · omega
  · intro hx2
    obtain ⟨st, hst⟩ := status_some s g.m_xlx2Slot hx2
    rcases hb.xlx2 with ⟨hn, hr, -⟩ | ⟨-, h0, -⟩
    · constructor
      · intro h1 h2
        have hno : ¬ (st = DMRGW_STATUS.DMRGWS_NONE ∨
            st = DMRGW_STATUS.DMRGWS_XLXREFLECTOR2) := by
          rw [hst] at h1 h2
          rintro (h | h)
          · exact h1 (by rw [h])
          · exact h2 (by rw [h])
        simp [fromXLX2, hn, hst, hno]
      · intro hok hm
        have hok' : st = DMRGW_STATUS.DMRGWS_NONE ∨
            st = DMRGW_STATUS.DMRGWS_XLXREFLECTOR2 := by
          rw [hst] at hok
          simpa using hok
        simp [fromXLX2, hn, hst, hok', hr, hm]
    · omega

/-- The two cases of C11 as amended on XLX-1: a frame arriving while slot 1 is held by
DmrNet1 is dropped without a log line, and a frame on slot 1 (which the
inbound rule for slot 2, TG 9 does not match) arriving while slot 1 is free is
dropped with the warning. -/
theorem xlx_inbound_conflict_is_silent_witness :
    fromXLX1 (setup xlxConf) heldByDmr1 (some (frame FLCO.FLCO_GROUP 2 9 0)) =
      some (heldByDmr1, []) ∧
    fromXLX1 (setup xlxConf) (initial xlxConf) (some (frame FLCO.FLCO_GROUP 1 9 0)) =
      some (initial xlxConf, [Event.logUnexpected 1 1 FLCO.FLCO_GROUP 9]) :=
  ⟨((xlx_inbound_conflict_is_silent xlxConf heldByDmr1 (frame FLCO.FLCO_GROUP 2 9 0)).1
      (Or.inl (by decide))).1 (by decide) (by decide),
    ((xlx_inbound_conflict_is_silent xlxConf (initial xlxConf)
      (frame FLCO.FLCO_GROUP 1 9 0)).1 (Or.inl (by decide))).2 (Or.inl (by decide))
      (by decide)⟩

/-! ## C12 -/

theorem runLoop_killed (p : Process) (sched : List (Option Nat)) (h : p.m_killed = true) :
    runLoop p sched = some (p, 0, sched) := by
  cases sched <;> simp [runLoop, h]

/-- C12 (the code departs from the claim): SIGHUP (signal 1) is delivered during the
third pass of the first run and SIGTERM (signal 15) is scheduled three passes
later.  `main` calls `run()` a second time, but `m_killed` is still true (only
`m_signal` is reset on line 101), so the loop of the second run executes no
pass at all, and `main` returns with `m_signal = 0` although SIGTERM was never
delivered. -/
theorem sighup_restart_exits_at_once :
    runLoop { Process.start with m_signal := 0 } [none, none, some 1, none, none, some 15] =
      some ({ m_killed := true, m_signal := 1 }, 3, [none, none, some 15]) ∧
    runLoop { m_killed := true, m_signal := 0 } [none, none, some 15] =
      some ({ m_killed := true, m_signal := 0 }, 0, [none, none, some 15]) ∧
    mainLoop 2 Process.start [none, none, some 1, none, none, some 15] =
      some ({ m_killed := true, m_signal := 0 }, [3, 0]) := by
  decide

/-! ## C13 -/

/-- C13 as stated fails: with `crossConf`, after scenario 4 slot 2 is held by DmrNet1
and slot 1 is free.  The group frame for TG 9 on slot 2 matches no XLX pattern
and no rule of DMR-1, and it matches DMR-2's rule, which moves it to slot 1.
The slot tested is the one after the rewrite, so the frame is written to DMR-2
and slot 1 passes to DmrNet2. -/
theorem scenario5_lockout_counterexample :
    runTicks (setup crossConf) (initial crossConf)
        [{ idle with modem := some (frame FLCO.FLCO_GROUP 1 8 0) }] =
      some (afterScenario4, [Event.write Peer.DMR1 (frame FLCO.FLCO_GROUP 2 81 0)]) ∧
    branch (setup crossConf) (frame FLCO.FLCO_GROUP 2 9 0) = Branch.dmr ∧
    (processChain (setup crossConf).m_dmr1RFRewrites (frame FLCO.FLCO_GROUP 2 9 0)).1 = none ∧
    (processChain (setup crossConf).m_dmr2RFRewrites (frame FLCO.FLCO_GROUP 2 9 0)).1 =
      some (frame FLCO.FLCO_GROUP 1 9 0) ∧
    fromModem (setup crossConf) afterScenario4 (frame FLCO.FLCO_GROUP 2 9 0) =
      some ({ afterScenario4 with
          status1 := DMRGW_STATUS.DMRGWS_DMRNETWORK2, timer1 := ⟨10000, true, 0⟩ },
        [Event.write Peer.DMR2 (frame FLCO.FLCO_GROUP 1 9 0)]) := by
  decide

/-- C13 as amended: while slot 2 is held by DmrNet1, a modem frame that matches no XLX
pattern and no rule of DMR-1's RF chain, and that DMR-2's RF chain rewrites to
a frame still on slot 2, is dropped: nothing is written to any peer and the
state, both owners included, is unchanged. -/
theorem scenario5_lockout (g : CDMRGateway) (s : RunState) (f d : CDMRData)
    (hown : s.status 2 = some DMRGW_STATUS.DMRGWS_DMRNETWORK1)
    (hb : branch g f = Branch.dmr)
    (h1 : ∀ q ∈ g.m_dmr1RFRewrites, q f = none)
    (h2 : (processChain g.m_dmr2RFRewrites f).1 = some d)
    (hd : d.slotNo = 2) :
    fromModem g s f = some (s, []) := by
  have hn1 := (processChain_none _ f).mpr h1
  have hno : ¬ (s.status d.slotNo = some DMRGW_STATUS.DMRGWS_NONE ∨
      s.status d.slotNo = some DMRGW_STATUS.DMRGWS_DMRNETWORK2) := by
    rw [hd, hown]
    simp
  have hg := (guardedWrite_contract s d DMRGW_STATUS.DMRGWS_DMRNETWORK2 Peer.DMR2
    (Or.inr hd)).2 hno
  cases hn2 : g.m_dmrNetwork2 <;> cases hnet : g.m_dmrNetwork1 <;>
    simp [fromModem, hb, modemToDMR, modemToDMR2, hnet, hn2, hn1, h2, hg]

/-- Scenario 5 for C13: after scenario 4, the group frame for TG 9 on slot 2 matches
DMR-2's rule 2:9 to 2:9 of `dmrConf` and is dropped. -/
theorem scenario5_lockout_witness :
    fromModem (setup dmrConf) afterScenario4 (frame FLCO.FLCO_GROUP 2 9 0) =
      some (afterScenario4, []) :=
  scenario5_lockout (setup dmrConf) afterScenario4 (frame FLCO.FLCO_GROUP 2 9 0)
    (frame FLCO.FLCO_GROUP 2 9 0) (by decide) (by decide) (by decide) (by decide) rfl

/-! ## C14 -/

theorem writes_guardedWrite (s s2 : RunState) (d : CDMRData) (tag : DMRGW_STATUS)
    (dest : Peer) (ev : List Event) (h : guardedWrite s d tag dest = some (s2, ev)) :
    (writes ev).length ≤ 1 ∧ (∀ p e, (p, e) ∈ writes ev → p = dest) ∧
      (∀ j, s2.status j = s.status j ∨ s2.status j = some tag) := by
  unfold guardedWrite at h
  split at h
  · cases h
  · split_ifs at h
    · split at h
      · cases h
      · rename_i s3 hc
        cases h
        refine ⟨by simp [writes], ?_, ?_⟩
        · intro p e hm
          exact (mem_writes_singleton p _ e _ hm).1
        · intro j
          unfold RunState.claim at hc
          split_ifs at hc <;> cases hc <;> simp only [RunState.status] <;>
            split_ifs <;> simp_all
    · cases h
      exact ⟨by simp [writes], by intro p e hm; simp [writes] at hm, fun j => Or.inl rfl⟩

theorem writes_modemToDMR2 (g : CDMRGateway) (s s2 : RunState) (f : CDMRData)
    (ev : List Event) (h : modemToDMR2 g s f = some (s2, ev)) : (writes ev).length ≤ 1 := by
  unfold modemToDMR2 at h
  split_ifs at h
  · split at h
    · exact (writes_guardedWrite s s2 _ _ _ ev h).1
    · cases h
      simp [writes]
  · cases h
    simp [writes]

theorem writes_fromModem (g : CDMRGateway) (s s2 : RunState) (f : CDMRData)
    (ev : List Event) (h : fromModem g s f = some (s2, ev)) : (writes ev).length ≤ 1 := by
  unfold fromModem at h
  split at h
  · unfold xlx1Voice at h
    simp only [] at h
    split at h
    · cases h
    · split_ifs at h
      split at h
      · cases h
      · cases h
        simp [writes]
  · unfold xlx2Voice at h
    simp only [] at h
    split at h
    · cases h
    · split_ifs at h
      split at h
      · cases h
      · cases h
        simp [writes]
  · unfold xlx1Link at h
    simp only [] at h
    split_ifs at h
    split at h
    · cases h
    · cases h
      simp [writes_append, writes_xlx1Detect, writes_xlx1Announce, writes]
  · unfold xlx2Link at h
    simp only [] at h
    split_ifs at h
    split at h
    · cases h
    · cases h
      simp [writes_append, writes_xlx2Detect, writes_xlx2Announce, writes]
  · unfold modemToDMR at h
    split_ifs at h
    · split at h
      · exact (writes_guardedWrite s s2 _ _ _ ev h).1
      · exact writes_modemToDMR2 g s s2 f ev h
    · exact writes_modemToDMR2 g s s2 f ev h

theorem fromModem_dmr1 (g : CDMRGateway) (s : RunState) (f d : CDMRData)
    (hb : branch g f = Branch.dmr) (hn : g.m_dmrNetwork1 = true)
    (hm : (processChain g.m_dmr1RFRewrites f).1 = some d) :
    fromModem g s f = guardedWrite s d DMRGW_STATUS.DMRGWS_DMRNETWORK1 Peer.DMR1 := by
  simp [fromModem, hb, modemToDMR, hn, hm]

/-- C14: for a modem frame that takes none of the XLX branches, when DMR-1 exists and
its RF chain matches (yielding `d` on slot 1 or 2), the outcome is that of the
guarded write to DMR-1 alone: it is the same whatever DMR-2's chain contains
and whether or not DMR-2 exists, every frame written goes to DMR-1, and no
slot becomes DmrNet2 that was not DmrNet2 before, whether or not the write to
DMR-1 is let through.  For every modem frame at most one frame is written. -/
theorem steps_1e_1f_exclusive (g : CDMRGateway) (s : RunState) (f : CDMRData) :
    (∀ d, (d.slotNo = 1 ∨ d.slotNo = 2) → branch g f = Branch.dmr →
      g.m_dmrNetwork1 = true → (processChain g.m_dmr1RFRewrites f).1 = some d →
      (∀ chain2 net2,
        fromModem { g with m_dmr2RFRewrites := chain2, m_dmrNetwork2 := net2 } s f =
          fromModem g s f) ∧
      ∃ s2 ev, fromModem g s f = some (s2, ev) ∧
        (∀ p e, (p, e) ∈ writes ev → p = Peer.DMR1) ∧
        (∀ j, s2.status j = some DMRGW_STATUS.DMRGWS_DMRNETWORK2 →
          s.status j = some DMRGW_STATUS.DMRGWS_DMRNETWORK2)) ∧
    (∀ s2 ev, fromModem g s f = some (s2, ev) → (writes ev).length ≤ 1) := by
  refine ⟨fun d hd hb hn hm => ?_, fun s2 ev h => writes_fromModem g s s2 f ev h⟩
  have heq := fromModem_dmr1 g s f d hb hn hm
  constructor
  · intro chain2 net2
    rw [heq]
    exact fromModem_dmr1 { g with m_dmr2RFRewrites := chain2, m_dmrNetwork2 := net2 } s f d
      hb hn hm
  · obtain ⟨hyes, hno⟩ :=
      guardedWrite_contract s d DMRGW_STATUS.DMRGWS_DMRNETWORK1 Peer.DMR1 hd
    have hsome : ∃ r, guardedWrite s d DMRGW_STATUS.DMRGWS_DMRNETWORK1 Peer.DMR1 = some r := by
      by_cases h : s.status d.slotNo = some DMRGW_STATUS.DMRGWS_NONE ∨
          s.status d.slotNo = some DMRGW_STATUS.DMRGWS_DMRNETWORK1
      · obtain ⟨s2, hr, -⟩ := hyes h
        exact ⟨_, hr⟩
      · exact ⟨_, hno h⟩
    obtain ⟨⟨s2, ev⟩, hr⟩ := hsome
    obtain ⟨-, hw, hst⟩ := writes_guardedWrite s s2 d _ _ ev hr
    refine ⟨s2, ev, by rw [heq, hr], hw, ?_⟩
    intro j hj
    rcases hst j with h | h
    · rw [← h]
      exact hj
    · rw [h] at hj
      cases hj

/-- Scenario 4 for C14: the frame for slot 1, TG 8 matches DMR-1's chain; exactly one
frame is written, to DMR-1, and no slot goes to DmrNet2. -/
theorem steps_1e_1f_exclusive_witness :
    ∃ s2 ev, fromModem (setup dmrConf) (initial dmrConf) (frame FLCO.FLCO_GROUP 1 8 0) =
        some (s2, ev) ∧
      (∀ p e, (p, e) ∈ writes ev → p = Peer.DMR1) ∧
      (∀ j, s2.status j = some DMRGW_STATUS.DMRGWS_DMRNETWORK2 →
        (initial dmrConf).status j = some DMRGW_STATUS.DMRGWS_DMRNETWORK2) :=
  ((steps_1e_1f_exclusive (setup dmrConf) (initial dmrConf) (frame FLCO.FLCO_GROUP 1 8 0)).1
    (frame FLCO.FLCO_GROUP 2 81 0) (by decide) (by decide) (by decide) (by decide)).2

/-! ## C15 -/

theorem guardedWrite_some (s : RunState) (d : CDMRData) (tag : DMRGW_STATUS) (dest : Peer)
    (hd : d.slotNo = 1 ∨ d.slotNo = 2) : ∃ r, guardedWrite s d tag dest = some r := by
  obtain ⟨hyes, hno⟩ := guardedWrite_contract s d tag dest hd
  by_cases h : s.status d.slotNo = some DMRGW_STATUS.DMRGWS_NONE ∨ s.status d.slotNo = some tag
  · obtain ⟨s2, hr, -⟩ := hyes h
    exact ⟨_, hr⟩
  · exact ⟨_, hno h⟩

theorem processChain_slot (chain : List IRewrite) (f d : CDMRData)
    (hq : ∀ q ∈ chain, ∀ f d, q f = some d → d.slotNo = 1 ∨ d.slotNo = 2)
    (h : (processChain chain f).1 = some d) : d.slotNo = 1 ∨ d.slotNo = 2 := by
  obtain ⟨pre, r, post, hc, -, hr, -⟩ :=
    (processChain_some chain f d (processChain chain f).2).mp (Prod.ext h rfl)
  exact hq r (by rw [hc]; simp) f d hr

theorem modemToDMR2_some (g : CDMRGateway) (hr : RulesOK g) (s : RunState) (f : CDMRData) :
    ∃ r, modemToDMR2 g s f = some r := by
  unfold modemToDMR2
  split_ifs
  · split
    · rename_i d hm
      exact guardedWrite_some s d _ _
        (processChain_slot _ f d (fun q hq => hr q (Or.inr (Or.inr (Or.inl hq)))) hm)
    · exact ⟨_, rfl⟩
  · exact ⟨_, rfl⟩

theorem modemToDMR_some (g : CDMRGateway) (hr : RulesOK g) (s : RunState) (f : CDMRData) :
    ∃ r, modemToDMR g s f = some r := by
  unfold modemToDMR
  split_ifs
  · split
    · rename_i d hm
      exact guardedWrite_some s d _ _
        (processChain_slot _ f d (fun q hq => hr q (Or.inl hq)) hm)
    · exact modemToDMR2_some g hr s f
  · exact modemToDMR2_some g hr s f

theorem fromModem_some (g : CDMRGateway) (hb : Built g) (hr : RulesOK g) (s : RunState)
    (f : CDMRData) (hf : f.slotNo = 1 ∨ f.slotNo = 2) : ∃ r, fromModem g s f = some r := by
  cases hbr : branch g f with
  | xlx1Voice =>
    obtain ⟨s2, hc, -⟩ := claim_some s f.slotNo DMRGW_STATUS.DMRGWS_XLXREFLECTOR1 hf
    exact ⟨_, fromModem_xlx1Voice g hb s s2 f hf hbr hc⟩
  | xlx2Voice =>
    obtain ⟨s2, hc, -⟩ := claim_some s f.slotNo DMRGW_STATUS.DMRGWS_XLXREFLECTOR2 hf
    exact ⟨_, fromModem_xlx2Voice g hb s s2 f hf hbr hc⟩
  | xlx1Link =>
    obtain ⟨s2, hc, -⟩ :=
      claim_some (xlx1Detect g s f).1 f.slotNo DMRGW_STATUS.DMRGWS_XLXREFLECTOR1 hf
    exact ⟨_, fromModem_xlx1Link g hb s s2 f hf hbr hc⟩
  | xlx2Link =>
    obtain ⟨s2, hc, -⟩ :=
      claim_some (xlx2Detect g s f).1 f.slotNo DMRGW_STATUS.DMRGWS_XLXREFLECTOR2 hf
    exact ⟨_, fromModem_xlx2Link g hb s s2 f hf hbr hc⟩
  | dmr =>
    obtain ⟨r, h⟩ := modemToDMR_some g hr s f
    exact ⟨r, by simp [fromModem, hbr, h]⟩

theorem fromXLX1_some (g : CDMRGateway) (hb : Built g) (hs : SlotsOK g) (s : RunState)
    (inp : Option CDMRData) : ∃ r, fromXLX1 g s inp = some r := by
  cases inp with
  | none => cases hn : g.m_xlxNetwork1 <;> exact ⟨(s, []), by simp [fromXLX1, hn]⟩
  | some f =>
    obtain ⟨s2, ev, h, -⟩ := fromXLX1_modem g hb s f hs.1
    exact ⟨_, h⟩

theorem fromXLX2_some (g : CDMRGateway) (hb : Built g) (hs : SlotsOK g) (s : RunState)
    (inp : Option CDMRData) : ∃ r, fromXLX2 g s inp = some r := by
  cases inp with
  | none => cases hn : g.m_xlxNetwork2 <;> exact ⟨(s, []), by simp [fromXLX2, hn]⟩
  | some f =>
    obtain ⟨s2, ev, h, -⟩ := fromXLX2_modem g hb s f hs.2
    exact ⟨_, h⟩

theorem fromDMR1_some (g : CDMRGateway) (hr : RulesOK g) (s : RunState)
    (inp : Option CDMRData) : ∃ r, fromDMR1 g s inp = some r := by
  cases inp with
  | none => cases hn : g.m_dmrNetwork1 <;> exact ⟨(s, []), by simp [fromDMR1, hn]⟩
  | some f =>
    obtain ⟨s2, ev, h, -⟩ := fromDMR1_modem g s f
      (fun d hm => processChain_slot _ f d (fun q hq => hr q (Or.inr (Or.inl hq))) hm)
    exact ⟨_, h⟩

theorem fromDMR2_some (g : CDMRGateway) (hr : RulesOK g) (s : RunState)
    (inp : Option CDMRData) : ∃ r, fromDMR2 g s inp = some r := by
  cases inp with
  | none => cases hn : g.m_dmrNetwork2 <;> exact ⟨(s, []), by simp [fromDMR2, hn]⟩
  | some f =>
    obtain ⟨s2, ev, h, -⟩ := fromDMR2_modem g s f
      (fun d hm => processChain_slot _ f d
        (fun q hq => hr q (Or.inr (Or.inr (Or.inr hq)))) hm)
    exact ⟨_, h⟩

theorem fromVoice1_some (g : CDMRGateway) (hb : Built g) (hs : SlotsOK g) (s : RunState)
    (inp : Option CDMRData) : ∃ r, fromVoice1 g s inp = some r := by
  cases hv : g.voice1 with
  | false => exact ⟨(s, []), by simp [fromVoice1, hv]⟩
  | true =>
    cases inp with
    | none => exact ⟨(s, []), by simp [fromVoice1, hv]⟩
    | some f =>
      obtain ⟨s2, hc, -⟩ :=
        claim_some s g.m_xlx1Slot DMRGW_STATUS.DMRGWS_XLXREFLECTOR1 (hs.1 (hb.voice1 hv))
      exact ⟨(s2, [Event.write Peer.Modem f]), by simp [fromVoice1, hv, hc]⟩

theorem fromVoice2_some (g : CDMRGateway) (hb : Built g) (hs : SlotsOK g) (s : RunState)
    (inp : Option CDMRData) : ∃ r, fromVoice2 g s inp = some r := by
  cases hv : g.voice2 with
  | false => exact ⟨(s, []), by simp [fromVoice2, hv]⟩
  | true =>
    cases inp with
    | none => exact ⟨(s, []), by simp [fromVoice2, hv]⟩
    | some f =>
      obtain ⟨s2, hc, -⟩ :=
        claim_some s g.m_xlx2Slot DMRGW_STATUS.DMRGWS_XLXREFLECTOR2 (hs.2 (hb.voice2 hv))
      exact ⟨(s2, [Event.write Peer.Modem f]), by simp [fromVoice2, hv, hc]⟩

theorem andThen_isSome (r : Result) (k : RunState → Result) (hr : ∃ x, r = some x)
    (hk : ∀ s, ∃ x, k s = some x) : ∃ x, r.andThen k = some x := by
  obtain ⟨⟨s1, e1⟩, rfl⟩ := hr
  obtain ⟨⟨s2, e2⟩, h2⟩ := hk s1
  exact ⟨(s2, e1 ++ e2), by simp [Result.andThen, h2]⟩

theorem dispatch_some (g : CDMRGateway) (hb : Built g) (hr : RulesOK g) (hs : SlotsOK g)
    (s : RunState) (i : TickInput) (hi : FramesOK i) : ∃ r, dispatch g s i = some r := by
  unfold dispatch
  refine andThen_isSome _ _ (andThen_isSome _ _ (andThen_isSome _ _ (andThen_isSome _ _
    (andThen_isSome _ _ (andThen_isSome _ _ (andThen_isSome _ _ ?_ ?_) ?_) ?_) ?_) ?_) ?_) ?_
  · unfold step1
    cases hm : i.modem with
    | none => exact ⟨_, rfl⟩
    | some f => exact fromModem_some g hb hr s f (hi f (Or.inl hm))
  · exact fun s => fromXLX1_some g hb hs s _
  · exact fun s => fromXLX2_some g hb hs s _
  · exact fun s => fromDMR1_some g hr s _
  · exact fun s => fromDMR2_some g hr s _
  · exact fun s => ⟨_, rfl⟩
  · exact fun s => fromVoice1_some g hb hs s _
  · exact fun s => fromVoice2_some g hb hs s _

theorem tick_isSome (g : CDMRGateway) (hb : Built g) (hr : RulesOK g) (hs : SlotsOK g)
    (s : RunState) (i : TickInput) (hi : FramesOK i) : ∃ r, tick g s i = some r := by
  obtain ⟨⟨s1, ev⟩, h⟩ := dispatch_some g hb hr hs s i hi
  exact ⟨_, tick_of_dispatch g s s1 i ev h⟩

theorem runTicks_isSome (g : CDMRGateway) (hb : Built g) (hr : RulesOK g) (hs : SlotsOK g)
    (is : List TickInput) :
    ∀ s, (∀ i ∈ is, FramesOK i) → ∃ r, runTicks g s is = some r := by
  induction is with
  | nil => exact fun s _ => ⟨_, rfl⟩
  | cons i is ih =>
    intro s hi
    unfold runTicks
    exact andThen_isSome _ _ (tick_isSome g hb hr hs s i (hi i (List.mem_cons_self i is)))
      (fun s2 => ih s2 (fun j hj => hi j (List.mem_cons_of_mem i hj)))

theorem index_defined (s : RunState) (j : Nat) (tag : DMRGW_STATUS) :
    ((s.status j).isSome = true ↔ j = 1 ∨ j = 2) ∧
    ((s.timer j).isSome = true ↔ j = 1 ∨ j = 2) ∧
    ((s.claim j tag).isSome = true ↔ j = 1 ∨ j = 2) := by
  unfold RunState.status RunState.timer RunState.claim
  refine ⟨?_, ?_, ?_⟩ <;> split_ifs <;> simp_all

theorem xlx_branch_created (g : CDMRGateway) (hb : Built g) (f : CDMRData)
    (hf : f.slotNo = 1 ∨ f.slotNo = 2) :
    ((branch g f = Branch.xlx1Voice ∨ branch g f = Branch.xlx1Link) →
      g.m_xlxNetwork1 = true ∧ g.m_xlx1Rewrite.isSome = true) ∧
    ((branch g f = Branch.xlx2Voice ∨ branch g f = Branch.xlx2Link) →
      g.m_xlxNetwork2 = true ∧ g.m_xlx2Rewrite.isSome = true) := by
  obtain ⟨b1, b2, b3, b4⟩ := branch_spec g f
  constructor
  · intro h
    have hslot : f.slotNo = g.m_xlx1Slot := by
      rcases h with h | h
      · exact (b1 h).2.1
      · exact (b3 h).2.1
    rcases hb.xlx1 with ⟨hn, -, hx⟩ | ⟨-, h0, -⟩
    · exact ⟨hn, by rw [hx]; rfl⟩
    · omega
  · intro h
    have hslot : f.slotNo = g.m_xlx2Slot := by
      rcases h with h | h
      · exact (b2 h).2.1
      · exact (b4 h).2.1
    rcases hb.xlx2 with ⟨hn, -, hx⟩ | ⟨-, h0, -⟩
    · exact ⟨hn, by rw [hx]; rfl⟩
    · omega

theorem not_created_zero (g : CDMRGateway) (hb : Built g) :
    (g.m_xlxNetwork1 = false → g.m_xlx1Slot = 0 ∧ g.m_xlx1TG = 0 ∧ g.m_xlx1Base = 0) ∧
    (g.m_xlxNetwork2 = false → g.m_xlx2Slot = 0 ∧ g.m_xlx2TG = 0 ∧ g.m_xlx2Base = 0) := by
  constructor
  · intro h
    rcases hb.xlx1 with ⟨hn, -⟩ | ⟨-, h1, h2, h3, -⟩
    · rw [h] at hn
      cases hn
    · exact ⟨h1, h2, h3⟩
  · intro h
    rcases hb.xlx2 with ⟨hn, -⟩ | ⟨-, h1, h2, h3, -⟩
    · rw [h] at hn
      cases hn
    · exact ⟨h1, h2, h3⟩

/-- C15: assume every rule of the DMR chains that matches yields a frame on slot 1 or 2
and every XLX network that was created has its primary slot in {1, 2}.  Then
(a) a session that was not created has slot, TG and base 0, and a modem frame
on slot 1 or 2 takes an XLX-k branch of step 1 only if XLX-k was created (its
network and its outbound rewrite exist); (b) an access to `status[]` or
`timer[]` is defined exactly at the indices 1 and 2, and every pass, and every
run of passes, whose frames all carry slot 1 or 2 has a defined result, that
is, it dereferences no missing object and uses no index other than 1 or 2. -/
theorem dispatch_never_undefined (c : CConf) (hr : RulesOK (setup c))
    (hs : SlotsOK (setup c)) :
    (((setup c).m_xlxNetwork1 = false →
        (setup c).m_xlx1Slot = 0 ∧ (setup c).m_xlx1TG = 0 ∧ (setup c).m_xlx1Base = 0) ∧
      ((setup c).m_xlxNetwork2 = false →
        (setup c).m_xlx2Slot = 0 ∧ (setup c).m_xlx2TG = 0 ∧ (setup c).m_xlx2Base = 0)) ∧
    (∀ f, (f.slotNo = 1 ∨ f.slotNo = 2) →
      ((branch (setup c) f = Branch.xlx1Voice ∨ branch (setup c) f = Branch.xlx1Link) →
        (setup c).m_xlxNetwork1 = true ∧ (setup c).m_xlx1Rewrite.isSome = true) ∧
      ((branch (setup c) f = Branch.xlx2Voice ∨ branch (setup c) f = Branch.xlx2Link) →
        (setup c).m_xlxNetwork2 = true ∧ (setup c).m_xlx2Rewrite.isSome = true)) ∧
    (∀ (s : RunState) j tag,
      ((s.status j).isSome = true ↔ j = 1 ∨ j = 2) ∧
      ((s.timer j).isSome = true ↔ j = 1 ∨ j = 2) ∧
      ((s.claim j tag).isSome = true ↔ j = 1 ∨ j = 2)) ∧
    (∀ s i, FramesOK i → ∃ s2 ev, tick (setup c) s i = some (s2, ev)) ∧
    (∀ s is, (∀ i ∈ is, FramesOK i) → ∃ s2 ev, runTicks (setup c) s is = some (s2, ev)) := by
  have hb := built_setup c
  generalize setup c = g at hb hr hs ⊢
  refine ⟨not_created_zero g hb, fun f hf => xlx_branch_created g hb f hf,
    fun s j tag => index_defined s j tag, ?_, ?_⟩
  · intro s i hi
    obtain ⟨⟨s2, ev⟩, h⟩ := tick_isSome g hb hr hs s i hi
    exact ⟨s2, ev, h⟩
  · intro s is hi
    obtain ⟨⟨s2, ev⟩, h⟩ := runTicks_isSome g hb hr hs is s hi
    exact ⟨s2, ev, h⟩

/-- The configuration `xlxConf` for C15: its only DMR rule keeps slot 1 and its XLX
sessions are on slots 1 and 2, so a pass in which the modem, XLX-1, DMR-1 and
voice source 2 all deliver a frame has a defined result. -/
theorem dispatch_never_undefined_witness :
    ∃ s2 ev, tick (setup xlxConf) heldByDmr1
      { idle with
        modem := some (frame FLCO.FLCO_USER_USER 1 64005 0)
        xlx1 := some (frame FLCO.FLCO_GROUP 2 9 0)
        dmr1 := some (frame FLCO.FLCO_GROUP 1 3 0)
        voice2 := some (frame FLCO.FLCO_GROUP 2 7 0)
        ms := 20 } = some (s2, ev) := by
  have h1 : (setup xlxConf).m_dmr1RFRewrites = [CRewriteTG 1 3 1 3 1] := rfl
  have h2 : (setup xlxConf).m_dmr1NetRewrites = [CRewriteTG 1 3 1 3 1] := rfl
  have h3 : (setup xlxConf).m_dmr2RFRewrites = [] := rfl
  have h4 : (setup xlxConf).m_dmr2NetRewrites = [] := rfl
  have hr : RulesOK (setup xlxConf) := by
    intro q hq f d h
    rw [h1, h2, h3, h4] at hq
    have hq' : q = CRewriteTG 1 3 1 3 1 := by simpa using hq
    rw [hq'] at h
    exact Or.inl (rewriteTG_slot _ _ _ _ _ f d h)
  have hs : SlotsOK (setup xlxConf) := ⟨fun _ => Or.inl rfl, fun _ => Or.inr rfl⟩
  refine (dispatch_never_undefined xlxConf hr hs).2.2.2.1 heldByDmr1 _ ?_
  intro f hf
  simp only [idle, Option.some.injEq] at hf
  rcases hf with hf | hf | hf | hf | hf | hf | hf
  · rw [← hf]
    exact Or.inl rfl
  · rw [← hf]
    exact Or.inr rfl
  · cases hf
  · rw [← hf]
    exact Or.inl rfl
  · cases hf
  · cases hf
  · rw [← hf]
    exact Or.inr rfl

end DMRGateway
